import Mathlib

/-!
# MVFS Linux glue layer: a shallow embedding of `mvfs_linux_utils.c`

Pointers are modelled as `Option Nat`: `none` is `NULL`, `some a` is the
address `a`.  Reference counts are unbounded naturals.  Kernel primitives
that may fail (allocation, security hooks) take their outcome from an
explicit record of booleans supplied by the caller of the model.
-/

namespace Mvfs

/-! ## Alias resolver: data model -/

/-- Bit masks of `dentry.d_flags` used by the resolver.  They are declared in
the kernel's `linux/dcache.h` (their values differ between kernel versions),
so they are parameters of the model. -/
structure DcacheBits where
  DCACHE_REFERENCED : Nat
  NFSD_DCACHE_DISCON : Nat
deriving DecidableEq, Repr

/-- The `struct dentry` fields read or written by
`vnlayer_inode2dentry_internal_no_lock`.  `addr` is the address of the
dentry itself; `unhashed` is the state reported by `d_unhashed`. -/
structure dentry where
  addr : Nat
  d_count : Nat
  d_flags : Nat
  d_parent : Nat
  d_name : List Nat
  d_op : Option Nat
  unhashed : Bool
deriving DecidableEq, Repr

/-- The `struct inode` fields used by the resolver: the mode and the alias
list `i_dentry`, in list order. -/
structure inode where
  i_mode : Nat
  i_dentry : List dentry
deriving DecidableEq, Repr

/-- File-type mask of a mode (`linux/stat.h`). -/
def S_IFMT : Nat := 0o170000
/-- File-type bits of a socket. -/
def S_IFSOCK : Nat := 0o140000
/-- File-type bits of a symbolic link. -/
def S_IFLNK : Nat := 0o120000
/-- File-type bits of a regular file. -/
def S_IFREG : Nat := 0o100000
/-- File-type bits of a block device. -/
def S_IFBLK : Nat := 0o060000
/-- File-type bits of a directory. -/
def S_IFDIR : Nat := 0o040000
/-- File-type bits of a character device. -/
def S_IFCHR : Nat := 0o020000
/-- File-type bits of a FIFO. -/
def S_IFIFO : Nat := 0o010000

/-- The kernel macro `S_ISDIR(m)`: `((m) & S_IFMT) == S_IFDIR`. -/
def S_ISDIR (m : Nat) : Bool := (m &&& S_IFMT) == S_IFDIR

/-- The kernel macro `IS_ROOT(x)`: `(x) == (x)->d_parent`. -/
def IS_ROOT (d : dentry) : Bool := d.addr == d.d_parent

/-- The kernel predicate `d_unhashed`. -/
def d_unhashed (d : dentry) : Bool := d.unhashed

/-- Modelled from the spec: `vnlayer_names_eq` is declared in a header that is
not part of the sources; the spec says the name "matches the alias's leaf
name", i.e. the two names are the same byte string. -/
def vnlayer_names_eq (a b : List Nat) : Bool := a == b

/-- The test `(found->d_flags & NFSD_DCACHE_DISCON) == 0`. -/
def is_connected (K : DcacheBits) (d : dentry) : Bool :=
  (d.d_flags &&& K.NFSD_DCACHE_DISCON) == 0

/-- The kernel's `dget` / `dget_locked`: one more reference on the dentry. -/
def dget (d : dentry) : dentry := { d with d_count := d.d_count + 1 }

/-- The statement `found->d_flags &= ~DCACHE_REFERENCED` on the 32-bit
`unsigned int d_flags`. -/
def clear_referenced (K : DcacheBits) (d : dentry) : dentry :=
  { d with d_flags := d.d_flags &&& (2 ^ 32 - 1 - K.DCACHE_REFERENCED) }

/-! ## Alias resolver: the scan -/

/-- One iteration of the `MDKI_IDENTRY_FOR_EACH` body on the alias `found`,
up to the decision: `true` when control reaches the `dget`/`break`, `false`
when the iteration ends with `found = NULL` (one of the `continue`s or the
final `found = NULL`). -/
def alias_accepted (K : DcacheBits) (ino : inode) (parent : Option Nat)
    (name : Option (List Nat)) (ops : Option Nat) (want_connected : Bool)
    (found : dentry) : Bool :=
  if ops != none && ops != found.d_op then
    false
  else if !(parent == none || some found.d_parent == parent ||
      (!want_connected && IS_ROOT found &&
        (found.d_flags &&& K.NFSD_DCACHE_DISCON) != 0)) then
    false
  else if !S_ISDIR ino.i_mode &&
      (match name with
       | some n => !vnlayer_names_eq found.d_name n
       | none => false) then
    false
  else if !S_ISDIR ino.i_mode && d_unhashed found then
    false
  else if !want_connected || (found.d_flags &&& K.NFSD_DCACHE_DISCON) == 0 then
    true
  else
    false

/-- The `MDKI_IDENTRY_FOR_EACH` loop: the position in the alias list of the
first alias on which the body breaks, or `none` when the loop runs off the
end of the list with `found = NULL`. -/
def scan_aliases (K : DcacheBits) (ino : inode) (parent : Option Nat)
    (name : Option (List Nat)) (ops : Option Nat) (want_connected : Bool) :
    List dentry → Option Nat
  | [] => none
  | d :: rest =>
    if alias_accepted K ino parent name ops want_connected d then some 0
    else (scan_aliases K ino parent name ops want_connected rest).map (· + 1)

/-- The effect of the accepting branch on the alias at position `i`:
`dget(found); found->d_flags &= ~DCACHE_REFERENCED`. -/
def take_alias (K : DcacheBits) : Nat → List dentry → List dentry
  | _, [] => []
  | 0, d :: rest => clear_referenced K (dget d) :: rest
  | i + 1, d :: rest => d :: take_alias K i rest

/-- Final values of the locals and of the object after a run of
`vnlayer_inode2dentry_internal_no_lock`: `found` is the position of the
returned alias in the alias list (`none` for `NULL`). -/
structure ResolveRun where
  found : Option Nat
  want_connected : Bool
  ino : inode
deriving DecidableEq, Repr

/-- The body of `vnlayer_inode2dentry_internal_no_lock`, keeping the final
value of the local `want_connected` (it is `false` exactly when control
passed through `goto retry`). -/
def vnlayer_inode2dentry_run (K : DcacheBits) (ino : inode)
    (parent : Option Nat) (name : Option (List Nat)) (ops : Option Nat) :
    ResolveRun :=
  if ino.i_dentry.isEmpty then
    { found := none, want_connected := true, ino := ino }
  else
    match scan_aliases K ino parent name ops true ino.i_dentry with
    | some i =>
      { found := some i, want_connected := true,
        ino := { ino with i_dentry := take_alias K i ino.i_dentry } }
    | none =>
      match scan_aliases K ino parent name ops false ino.i_dentry with
      | some i =>
        { found := some i, want_connected := false,
          ino := { ino with i_dentry := take_alias K i ino.i_dentry } }
      | none => { found := none, want_connected := false, ino := ino }

/-- The function `vnlayer_inode2dentry_internal_no_lock`: the returned alias
(its position in the alias list, `none` for `NULL`) and the object with its
alias list after the call. -/
def vnlayer_inode2dentry_internal_no_lock (K : DcacheBits) (ino : inode)
    (parent : Option Nat) (name : Option (List Nat)) (ops : Option Nat) :
    Option Nat × inode :=
  ((vnlayer_inode2dentry_run K ino parent name ops).found,
    (vnlayer_inode2dentry_run K ino parent name ops).ino)

/-! ## Alias resolver: the acceptance conditions in the words of the spec -/

/-- Condition (i): the operation-table filter is absent or equals the alias's
`d_op`. -/
def ops_cond (ops : Option Nat) (d : dentry) : Prop :=
  ops = none ∨ ops = d.d_op

/-- Condition (ii): the parent is absent, or is the alias's parent, or the
alias is a disconnected root fragment (`IS_ROOT` with the disconnected flag
set). -/
def parent_cond (K : DcacheBits) (parent : Option Nat) (d : dentry) : Prop :=
  parent = none ∨ parent = some d.d_parent ∨
    (IS_ROOT d = true ∧ is_connected K d = false)

/-- Condition (iii): for an object that is not a directory, the name is
absent or is the alias's name, and the alias is hashed. -/
def name_cond (ino : inode) (name : Option (List Nat)) (d : dentry) : Prop :=
  S_ISDIR ino.i_mode = false →
    (name = none ∨ name = some d.d_name) ∧ d_unhashed d = false

/-- Conditions (i)-(iv) of the connected pass. -/
def connected_pass_cond (K : DcacheBits) (ino : inode) (parent : Option Nat)
    (name : Option (List Nat)) (ops : Option Nat) (d : dentry) : Prop :=
  ops_cond ops d ∧ parent_cond K parent d ∧ name_cond ino name d ∧
    is_connected K d = true

/-- Conditions (i)-(iii) of the fallback pass (connectivity not required). -/
def fallback_pass_cond (K : DcacheBits) (ino : inode) (parent : Option Nat)
    (name : Option (List Nat)) (ops : Option Nat) (d : dentry) : Prop :=
  ops_cond ops d ∧ parent_cond K parent d ∧ name_cond ino name d

/-! ## Alias resolver: concrete inputs -/

/-- The flag masks of `linux/dcache.h` in kernels 2.6.38 and later. -/
def linux_bits : DcacheBits :=
  { DCACHE_REFERENCED := 0x0040, NFSD_DCACHE_DISCON := 0x0020 }

/-- A connected, hashed alias `a` under the parent at address 10, recently
referenced. -/
def alias_conn : dentry :=
  { addr := 1, d_count := 1, d_flags := 0x0040, d_parent := 10,
    d_name := [97], d_op := none, unhashed := false }

/-- A connected alias that has been unhashed (it is going away). -/
def alias_conn_unhashed : dentry :=
  { addr := 3, d_count := 1, d_flags := 0, d_parent := 10,
    d_name := [99], d_op := none, unhashed := true }

/-- A disconnected, hashed root fragment. -/
def alias_disc : dentry :=
  { addr := 2, d_count := 1, d_flags := 0x0020, d_parent := 2,
    d_name := [98], d_op := none, unhashed := false }

/-- A disconnected root fragment that has been unhashed. -/
def alias_disc_unhashed : dentry :=
  { addr := 4, d_count := 1, d_flags := 0x0020, d_parent := 4,
    d_name := [100], d_op := none, unhashed := true }

/-- A regular file with a disconnected alias followed by a connected one. -/
def file_two_aliases : inode :=
  { i_mode := 0o100644, i_dentry := [alias_disc, alias_conn] }

/-- A regular file whose only connected alias is unhashed, with a hashed
disconnected alias. -/
def file_conn_unhashed : inode :=
  { i_mode := 0o100644, i_dentry := [alias_conn_unhashed, alias_disc] }

/-- A regular file with a single alias, disconnected and hashed. -/
def file_only_disc : inode :=
  { i_mode := 0o100644, i_dentry := [alias_disc] }

/-- A regular file with a single alias, disconnected and unhashed. -/
def file_only_disc_unhashed : inode :=
  { i_mode := 0o100644, i_dentry := [alias_disc_unhashed] }

/-! ## Credential switcher: data model -/

/-- The fields of the MVFS credential `CRED_T` read by the switcher.
`MDKI_CR_GET_UID` and `MDKI_CR_GET_GID` read `cr_fsuid` and `cr_fsgid` (the
source comments that they "actually get the fsuid/fsgid"); `cr_groups` is the
group array, of which the first `cr_ngroups` entries are the group-set. -/
structure CRED_T where
  cr_fsuid : Nat
  cr_fsgid : Nat
  cr_ngroups : Nat
  cr_groups : List Nat
deriving DecidableEq, Repr

/-- The accessor macro `MDKI_CR_GET_UID`. -/
def MDKI_CR_GET_UID (cr : CRED_T) : Nat := cr.cr_fsuid

/-- The accessor macro `MDKI_CR_GET_GID`. -/
def MDKI_CR_GET_GID (cr : CRED_T) : Nat := cr.cr_fsgid

/-- The array read `cr->cr_groups[i]`. -/
def cr_group_at (cr : CRED_T) (i : Nat) : Nat := cr.cr_groups.getD i 0

/-- The group-set of a `CRED_T`: the first `cr_ngroups` entries of its group
array. -/
def cred_group_set (cr : CRED_T) : List Nat := cr.cr_groups.take cr.cr_ngroups

/-- The kernel's `struct group_info`: `ngroups` is the length of the list and
`GROUP_AT(gi, i)` its `i`-th element.  The conversions `MDKI_KGID_TO_GID`
and `MDKI_GID_TO_KGID` are the identity on the numeric id. -/
abbrev group_info := List Nat

/-- The element `GROUP_AT(grp, i)`. -/
def GROUP_AT (grp : group_info) (i : Nat) : Nat := grp.getD i 0

/-- The caller's credential: the kernel's `struct cred` (`SYS_CRED_T`); on
kernels before 2.6.29 the same fields live directly in `task_struct`. -/
structure SYS_CRED_T where
  uid : Nat
  gid : Nat
  suid : Nat
  sgid : Nat
  euid : Nat
  egid : Nat
  fsuid : Nat
  fsgid : Nat
  securebits : Nat
  cap_effective : Nat
  group_info : group_info
deriving DecidableEq, Repr

/-- The part of `current` that the switcher reads and writes: the active
(subjective) credential, and the objective credential `real_cred`, which
`override_creds` leaves alone. -/
structure task_struct where
  cred : SYS_CRED_T
  real_cred : SYS_CRED_T
deriving DecidableEq, Repr

/-- The accessor `MDKI_GET_CURRENT_FSUID()`. -/
def MDKI_GET_CURRENT_FSUID (cur : task_struct) : Nat := cur.cred.fsuid

/-- The accessor `MDKI_GET_CURRENT_FSGID()`. -/
def MDKI_GET_CURRENT_FSGID (cur : task_struct) : Nat := cur.cred.fsgid

/-- What a non-NULL `vnlayer_fsuid_save_t` points to.  With
`LINUX_VERSION_CODE >= KERNEL_VERSION(2,6,32)` it is the displaced
`struct cred`; before, it is a `vnlayer_fsuid_save_struct_t` holding
`old_fsuid`, `old_fsgid` and `saved_group_info`. -/
inductive fsuid_save_obj where
  | creds (old : SYS_CRED_T)
  | save_struct (old_fsuid old_fsgid : Nat) (saved_group_info : group_info)
deriving DecidableEq, Repr

/-- The token type `vnlayer_fsuid_save_t`, a pointer: `none` is NULL. -/
abbrev vnlayer_fsuid_save_t := Option fsuid_save_obj

/-- Outcomes of the kernel primitives called by `vnlayer_fsuid_save` that can
fail: `groups_alloc`, `KMEM_ALLOC` of the save record (old kernels),
`prepare_creds` (new kernels) and `set_groups` / `set_current_groups`. -/
structure SaveOutcomes where
  groups_alloc_ok : Bool
  kmem_alloc_ok : Bool
  prepare_creds_ok : Bool
  set_groups_ok : Bool
deriving DecidableEq, Repr

/-! ## Credential switcher: the functions -/

/-- The `for` loop of `vnlayer_cmp_cred2grp` from index `i`, with `n` rounds
left: 1 as soon as an element differs, 0 at the end. -/
def cmp_cred2grp_loop (cr : CRED_T) (grp : group_info) : Nat → Nat → Nat
  | _, 0 => 0
  | i, n + 1 =>
    if cr_group_at cr i != GROUP_AT grp i then 1
    else cmp_cred2grp_loop cr grp (i + 1) n

/-- The function `vnlayer_cmp_cred2grp`: 0 when the group array of the
`CRED_T` matches the `group_info`, 1 otherwise. -/
def vnlayer_cmp_cred2grp (cr : CRED_T) (grp : group_info) : Nat :=
  if cr.cr_ngroups == 0 || cr.cr_ngroups != grp.length then 1
  else cmp_cred2grp_loop cr grp 0 cr.cr_ngroups

/-- The loop of `vnlayer_fsuid_save` that fills the freshly allocated
`group_info` of `cr_ngroups` entries: `GROUP_AT(gi, i) = cr_groups[i]`. -/
def gi_from_cred (cr : CRED_T) : group_info :=
  (List.range cr.cr_ngroups).map (fun i => cr_group_at cr i)

/-- The kernel's `groups_sort`, which `set_groups` and `set_current_groups`
apply in place to the `group_info` they are given before they install it:
the ids in ascending order.  It is kernel code, not part of the
repository. -/
def groups_sort (gi : group_info) : group_info :=
  gi.insertionSort (fun a b => a ≤ b)

/-- Result of `vnlayer_fsuid_save`: the returned boolean, the token written
through `save_p`, and `current` after the call. -/
structure SaveResult where
  rv : Bool
  save_p : vnlayer_fsuid_save_t
  cur : task_struct
deriving DecidableEq, Repr

/-- The function `vnlayer_fsuid_save`.  `old_kernel` selects the branch
compiled for `LINUX_VERSION_CODE < KERNEL_VERSION(2,6,32)`.  The kernel's
`set_groups` / `set_current_groups` sort the given `group_info` in place
(`groups_sort`) and install it when they succeed, and change nothing when
they fail; `prepare_creds` copies the current credential; `override_creds`
installs the new credential and returns the displaced one.  The usage counts of `group_info` and `cred`
objects (`get_group_info`, `put_group_info`, `put_cred`) are storage
management and are not part of the model. -/
def vnlayer_fsuid_save (old_kernel : Bool) (env : SaveOutcomes)
    (cur : task_struct) (cred : CRED_T) : SaveResult :=
  let my_group_info := cur.cred.group_info
  if MDKI_CR_GET_UID cred != MDKI_GET_CURRENT_FSUID cur ||
      MDKI_CR_GET_GID cred != MDKI_GET_CURRENT_FSGID cur ||
      vnlayer_cmp_cred2grp cred my_group_info != 0 then
    if !env.groups_alloc_ok then
      { rv := false, save_p := none, cur := cur }
    else
      let gi_from_cred_p := gi_from_cred cred
      if old_kernel then
        if env.kmem_alloc_ok then
          if !env.set_groups_ok then
            { rv := false, save_p := none, cur := cur }
          else
            let cur1 : task_struct :=
              { cur with cred :=
                { cur.cred with group_info := groups_sort gi_from_cred_p } }
            let save := fsuid_save_obj.save_struct (MDKI_GET_CURRENT_FSUID cur1)
              (MDKI_GET_CURRENT_FSGID cur1) my_group_info
            { rv := true, save_p := some save,
              cur := { cur1 with cred :=
                { cur1.cred with fsuid := MDKI_CR_GET_UID cred,
                                 fsgid := MDKI_CR_GET_GID cred } } }
        else
          { rv := false, save_p := none, cur := cur }
      else
        if !env.prepare_creds_ok then
          { rv := false, save_p := none, cur := cur }
        else
          let tmp_cred := cur.cred
          if !env.set_groups_ok then
            { rv := false, save_p := none, cur := cur }
          else
            let tmp_cred1 : SYS_CRED_T :=
              { tmp_cred with group_info := groups_sort gi_from_cred_p }
            let tmp_cred2 : SYS_CRED_T :=
              { tmp_cred1 with fsuid := MDKI_CR_GET_UID cred,
                               fsgid := MDKI_CR_GET_GID cred }
            { rv := true, save_p := some (fsuid_save_obj.creds cur.cred),
              cur := { cur with cred := tmp_cred2 } }
  else
    { rv := false, save_p := none, cur := cur }

/-- The function `vnlayer_fsuid_restore`, given the token `*saved_p`: the
value left in `*saved_p` and `current` after the call, or `none` when the
call faults.  It faults when the token is NULL (the old-kernel branch reads
`saved->old_fsuid` through it, the new-kernel branch hands it to
`revert_creds`, which requires a credential); a token of the other kernel
branch cannot occur and is treated alike.  `set_current_groups_ok` is the
outcome of `set_current_groups` in the old-kernel branch, whose failure is
only logged; the `group_info` it is given there is the one the kernel had
installed before the save, which is sorted already, so that it is installed
as it is. -/
def vnlayer_fsuid_restore (old_kernel : Bool) (set_current_groups_ok : Bool)
    (cur : task_struct) (saved_p : vnlayer_fsuid_save_t) :
    Option (vnlayer_fsuid_save_t × task_struct) :=
  if old_kernel then
    match saved_p with
    | some (fsuid_save_obj.save_struct old_fsuid old_fsgid saved_group_info) =>
      let cur1 : task_struct :=
        { cur with cred := { cur.cred with fsuid := old_fsuid, fsgid := old_fsgid } }
      let cur2 : task_struct :=
        if set_current_groups_ok then
          { cur1 with cred := { cur1.cred with group_info := saved_group_info } }
        else cur1
      some (none, cur2)
    | _ => none
  else
    match saved_p with
    | some (fsuid_save_obj.creds old) =>
      some (saved_p, { cur with cred := old })
    | _ => none

/-! ## Credential switcher: concrete inputs -/

/-- A caller running as uid/gid 1000 with supplementary groups 1000 and 27. -/
def user_task : task_struct :=
  { cred := { uid := 1000, gid := 1000, suid := 1000, sgid := 1000,
              euid := 1000, egid := 1000, fsuid := 1000, fsgid := 1000,
              securebits := 0, cap_effective := 0, group_info := [1000, 27] },
    real_cred := { uid := 1000, gid := 1000, suid := 1000, sgid := 1000,
                   euid := 1000, egid := 1000, fsuid := 1000, fsgid := 1000,
                   securebits := 0, cap_effective := 0, group_info := [1000, 27] } }

/-- A caller running as uid/gid 1000 with no supplementary group. -/
def user_task_nogroups : task_struct :=
  { cred := { uid := 1000, gid := 1000, suid := 1000, sgid := 1000,
              euid := 1000, egid := 1000, fsuid := 1000, fsgid := 1000,
              securebits := 0, cap_effective := 0, group_info := [] },
    real_cred := { uid := 1000, gid := 1000, suid := 1000, sgid := 1000,
                   euid := 1000, egid := 1000, fsuid := 1000, fsgid := 1000,
                   securebits := 0, cap_effective := 0, group_info := [] } }

/-- The identity of `user_task` as a `CRED_T` (the array has a stale third
slot beyond `cr_ngroups`). -/
def same_cred : CRED_T :=
  { cr_fsuid := 1000, cr_fsgid := 1000, cr_ngroups := 2, cr_groups := [1000, 27, 5] }

/-- The identity of `user_task_nogroups` as a `CRED_T`: an empty group-set. -/
def same_cred_nogroups : CRED_T :=
  { cr_fsuid := 1000, cr_fsgid := 1000, cr_ngroups := 0, cr_groups := [] }

/-- A differing identity: uid 0, gid 0, groups 0 and 4. -/
def root_cred : CRED_T :=
  { cr_fsuid := 0, cr_fsgid := 0, cr_ngroups := 2, cr_groups := [0, 4] }

/-- A differing identity whose group array is not in ascending order: uid 0,
gid 0, groups 4 and 0. -/
def unsorted_cred : CRED_T :=
  { cr_fsuid := 0, cr_fsgid := 0, cr_ngroups := 2, cr_groups := [4, 0] }

/-- Every kernel primitive succeeds. -/
def all_ok : SaveOutcomes :=
  { groups_alloc_ok := true, kmem_alloc_ok := true, prepare_creds_ok := true,
    set_groups_ok := true }

/-- The kernel cannot allocate the group-set copy. -/
def no_groups_alloc : SaveOutcomes :=
  { groups_alloc_ok := false, kmem_alloc_ok := true, prepare_creds_ok := true,
    set_groups_ok := true }

/-! ## Cleartext vnode manager: data model -/

/-- The vnode types named in the sources (`VTYPE_T`). -/
inductive VTYPE_T where
  | VNON | VREG | VDIR | VBLK | VCHR | VLNK | VFIFO | VSOCK
deriving DecidableEq, Repr

/-- The function `vnlayer_mode_to_vtype`: a `switch` on `mode & S_IFMT`. -/
def vnlayer_mode_to_vtype (mode : Nat) : VTYPE_T :=
  if (mode &&& S_IFMT) = S_IFREG then VTYPE_T.VREG
  else if (mode &&& S_IFMT) = S_IFDIR then VTYPE_T.VDIR
  else if (mode &&& S_IFMT) = S_IFCHR then VTYPE_T.VCHR
  else if (mode &&& S_IFMT) = S_IFBLK then VTYPE_T.VBLK
  else if (mode &&& S_IFMT) = S_IFLNK then VTYPE_T.VLNK
  else if (mode &&& S_IFMT) = S_IFIFO then VTYPE_T.VFIFO
  else if (mode &&& S_IFMT) = S_IFSOCK then VTYPE_T.VSOCK
  else VTYPE_T.VNON

/-- The operation tables and the vfs object whose addresses the sources
store into inodes and vnodes. -/
inductive op_table where
  | vnlayer_clrvnode_asops
  | vnlayer_clrvnode_fops
  | vnlayer_clrvnode_iops
  | vnode_shadow_slink_inode_ops
  | vnode_shadow_reg_inode_ops
  | vnode_shadow_mapped_file_ops
  | vnode_shadow_file_ops
  | mvop_cltxt_vnops
  | vnlayer_cltxt_vfs
deriving DecidableEq, Repr

/-- The attributes of a real inode copied by `SHADOW_CP_INODAT`, with its
inode number. -/
structure inode_attrs where
  i_ino : Nat
  i_mode : Nat
  i_size : Nat
  i_mtime : Nat
deriving DecidableEq, Repr

/-- A cleartext vnode together with the inode it is embedded in (`ITOV` and
`VTOI` map one to the other, so both live at one address).  The reference
count of the vnode is the inode's `i_count`. -/
structure clr_vnode where
  i_count : Nat
  i_version : Nat
  i_ino : Nat
  i_mode : Nat
  i_size : Nat
  i_mtime : Nat
  a_ops : Option op_table
  i_fop : Option op_table
  i_op : Option op_table
  v_sanity : Nat
  v_flag : Nat
  v_type : VTYPE_T
  v_vfsp : Option op_table
  v_op : Option op_table
  v_data : Option Nat
  v_dent : Option Nat
  v_vfsmnt : Option Nat
deriving DecidableEq, Repr

/-- The module globals and the kernel objects reachable from them: the
cached root vnode, the registered backing store, the registered system-root
entry and mount, the live cleartext-vnode counter, the vnode/inode objects by
address, and for each directory-entry and mount address its reference count
(and, for an entry, the attributes of its `d_inode`, `none` when the entry is
negative). -/
structure World where
  vnlayer_sysroot_clrvp : Option Nat
  vnlayer_clrvnode_vfsp : Option Nat
  vnlayer_sysroot_dentry : Option Nat
  vnlayer_sysroot_mnt : Option Nat
  vnlayer_clrvnode_count : Int
  vnodes : Nat → Option clr_vnode
  d_count : Nat → Nat
  d_inode : Nat → Option inode_attrs
  mnt_count : Nat → Nat

/-- Modelled from the spec: `SHADOW_CP_INODAT` is a macro of
`mvfs_linux_shadow.h`, which is not among the sources; the spec says it
copies the size, the mtime and the mode of the real object. -/
def SHADOW_CP_INODAT (real : inode_attrs) (shadow : clr_vnode) : clr_vnode :=
  { shadow with i_mode := real.i_mode, i_size := real.i_size,
                i_mtime := real.i_mtime }

/-- Modelled from the spec: `VN_HOLD` is a macro of `vnode_linux.h`, which is
not among the sources; the spec says the cached instance is returned "with
its reference incremented" and that the count is carried by the inode the
vnode is embedded in. -/
def VN_HOLD (w : World) (vp : Nat) : World :=
  { w with vnodes := fun b =>
      if b = vp then (w.vnodes vp).map (fun v => { v with i_count := v.i_count + 1 })
      else w.vnodes b }

/-- The kernel's `dget` on a directory-entry address (`VNODE_DGET`): one more
reference; `dget(NULL)` does nothing. -/
def VNODE_DGET (w : World) (dent : Option Nat) : World :=
  match dent with
  | some da => { w with d_count := fun b => if b = da then w.d_count da + 1 else w.d_count b }
  | none => w

/-- The kernel's `mntget` on a mount address (`MDKI_MNTGET`): one more
reference; `mntget(NULL)` does nothing. -/
def MDKI_MNTGET (w : World) (mnt : Option Nat) : World :=
  match mnt with
  | some ma => { w with mnt_count := fun b => if b = ma then w.mnt_count ma + 1 else w.mnt_count b }
  | none => w

/-! ## Cleartext vnode manager: create -/

/-- The function `vnlayer_linux_new_clrvnode`.  `VNODE_SANITY` is the tag
constant of `vnode_linux.h`; `new_inode` is the outcome of the kernel's
`new_inode`: `none` when it fails, otherwise the address of the new inode
and the object as allocated.  The result is `none` when `ASSERT(dent)`
fails, otherwise the returned vnode address (`none` for NULL) and the world
after the call. -/
def vnlayer_linux_new_clrvnode (VNODE_SANITY : Nat)
    (new_inode : Option (Nat × clr_vnode)) (w : World)
    (dent : Option Nat) (mnt : Option Nat) : Option (Option Nat × World) :=
  if w.vnlayer_clrvnode_vfsp = none then
    some (none, w)
  else if w.vnlayer_sysroot_dentry = dent ∧ w.vnlayer_sysroot_mnt = mnt ∧
      w.vnlayer_sysroot_clrvp ≠ none then
    match w.vnlayer_sysroot_clrvp with
    | some res => some (some res, VN_HOLD w res)
    | none => some (none, w)
  else
    match new_inode with
    | none => some (none, w)
    | some (clri, raw) =>
      let w1 : World :=
        { w with vnlayer_clrvnode_count := w.vnlayer_clrvnode_count + 1 }
      let c0 : clr_vnode := { raw with i_version := 0 }
      match dent with
      | none => none
      | some da =>
        let c1 : clr_vnode :=
          match w1.d_inode da with
          | some real =>
            { SHADOW_CP_INODAT real c0 with
              v_type := vnlayer_mode_to_vtype real.i_mode }
          | none =>
            { c0 with i_ino := 0, i_mode := 0, v_type := VTYPE_T.VNON }
        let c2 : clr_vnode :=
          { c1 with a_ops := some op_table.vnlayer_clrvnode_asops,
                    i_fop := some op_table.vnlayer_clrvnode_fops,
                    i_op := some op_table.vnlayer_clrvnode_iops,
                    v_sanity := VNODE_SANITY,
                    v_flag := 0,
                    v_vfsp := some op_table.vnlayer_cltxt_vfs,
                    v_op := some op_table.mvop_cltxt_vnops,
                    v_data := none,
                    v_dent := dent,
                    v_vfsmnt := mnt }
        let w2 : World := MDKI_MNTGET (VNODE_DGET w1 dent) mnt
        some (some clri,
          { w2 with vnodes := fun b => if b = clri then some c2 else w2.vnodes b })

/-! ## Cleartext vnode manager: concrete inputs -/

/-- The cached root vnode of `root_world`, holding the entry at address 1
and the mount at address 2, with three references. -/
def root_vnode : clr_vnode :=
  { i_count := 3, i_version := 0, i_ino := 2, i_mode := 0o040755, i_size := 4096,
    i_mtime := 0, a_ops := some op_table.vnlayer_clrvnode_asops,
    i_fop := some op_table.vnlayer_clrvnode_fops,
    i_op := some op_table.vnlayer_clrvnode_iops,
    v_sanity := 0x600d, v_flag := 0, v_type := VTYPE_T.VDIR,
    v_vfsp := some op_table.vnlayer_cltxt_vfs,
    v_op := some op_table.mvop_cltxt_vnops, v_data := none,
    v_dent := some 1, v_vfsmnt := some 2 }

/-- A world with a registered backing store (address 50), the system root
registered as entry 1 on mount 2, and the root vnode cached at address 7. -/
def root_world : World :=
  { vnlayer_sysroot_clrvp := some 7,
    vnlayer_clrvnode_vfsp := some 50,
    vnlayer_sysroot_dentry := some 1,
    vnlayer_sysroot_mnt := some 2,
    vnlayer_clrvnode_count := 1,
    vnodes := fun b => if b = 7 then some root_vnode else none,
    d_count := fun b => if b = 1 then 5 else 0,
    d_inode := fun b =>
      if b = 1 then some { i_ino := 2, i_mode := 0o040755, i_size := 4096, i_mtime := 0 }
      else none,
    mnt_count := fun b => if b = 2 then 4 else 0 }

/-! ## Cleartext vnode manager: destroy -/

/-- The kernel's `dput` on a directory-entry address (`VNODE_DPUT`): one
reference less; `dput(NULL)` does nothing. -/
def VNODE_DPUT (w : World) (dent : Option Nat) : World :=
  match dent with
  | some da => { w with d_count := fun b => if b = da then w.d_count da - 1 else w.d_count b }
  | none => w

/-- The kernel's `mntput` on a mount address (`MDKI_MNTPUT`): one reference
less; `mntput(NULL)` does nothing. -/
def MDKI_MNTPUT (w : World) (mnt : Option Nat) : World :=
  match mnt with
  | some ma => { w with mnt_count := fun b => if b = ma then w.mnt_count ma - 1 else w.mnt_count b }
  | none => w

/-- How a call of `vnlayer_linux_free_clrvnode` ends: it runs to its end, or
it stops at the failing `ASSERT` (with the world as it is at that point), or
its argument does not address a vnode. -/
inductive free_outcome where
  | completed (w : World)
  | assertion_failed (w : World)
  | bad_pointer

/-- Whether the call stopped at the failing sanity assertion. -/
def free_outcome.is_assertion_failed : free_outcome → Bool
  | free_outcome.assertion_failed _ => true
  | _ => false

/-- Whether the call ran to its end. -/
def free_outcome.is_completed : free_outcome → Bool
  | free_outcome.completed _ => true
  | _ => false

/-- The function `vnlayer_linux_free_clrvnode`.  Modelled from the spec: the
macro `ASSERT` is not among the sources; the spec calls a sanity-tag
mismatch on destroy a fatal assertion, so a failing `ASSERT` ends the
call. -/
def vnlayer_linux_free_clrvnode (VNODE_SANITY : Nat) (w : World) (cvp : Nat) :
    free_outcome :=
  let w1 : World :=
    { w with vnlayer_clrvnode_count := w.vnlayer_clrvnode_count - 1 }
  match w1.vnodes cvp with
  | none => free_outcome.bad_pointer
  | some v =>
    if v.v_sanity ≠ VNODE_SANITY then
      free_outcome.assertion_failed w1
    else
      let w2 : World := VNODE_DPUT w1 v.v_dent
      let w3 : World := if v.v_vfsmnt ≠ none then MDKI_MNTPUT w2 v.v_vfsmnt else w2
      free_outcome.completed
        { w3 with vnodes := fun b =>
            if b = cvp then some { v with v_dent := none, v_vfsmnt := none }
            else w3.vnodes b }

/-! ## Filesystem-root context manager -/

/-- The fields of the kernel's `struct fs_struct` that the context manager
copies; `altroot` and `altrootmnt` exist only in kernels before 2.6.27 and
are NULL otherwise.  The lock and the use counts of the structure are not
part of the model. -/
structure fs_struct where
  umask : Nat
  root : Option Nat
  rootmnt : Option Nat
  pwd : Option Nat
  pwdmnt : Option Nat
  altroot : Option Nat
  altrootmnt : Option Nat
deriving DecidableEq, Repr

/-- The accessor `MDKI_FS_ROOTDENTRY`. -/
def MDKI_FS_ROOTDENTRY (fs : fs_struct) : Option Nat := fs.root
/-- The accessor `MDKI_FS_PWDDENTRY`. -/
def MDKI_FS_PWDDENTRY (fs : fs_struct) : Option Nat := fs.pwd
/-- The accessor `MDKI_FS_ROOTMNT`. -/
def MDKI_FS_ROOTMNT (fs : fs_struct) : Option Nat := fs.rootmnt
/-- The accessor `MDKI_FS_PWDMNT`. -/
def MDKI_FS_PWDMNT (fs : fs_struct) : Option Nat := fs.pwdmnt

/-- The function `vnlayer_make_temp_fs_struct`.  `pre_2_6_27` selects the
code compiled for `LINUX_VERSION_CODE < KERNEL_VERSION(2,6,27)`,
`kmalloc_ok` is the outcome of `mdki_linux_kmalloc`, and `current_fs` is
`current->fs`.  The result is the new structure (`none` for NULL) and the
world after the call. -/
def vnlayer_make_temp_fs_struct (pre_2_6_27 : Bool) (kmalloc_ok : Bool)
    (current_fs : Option fs_struct) (w : World) : Option fs_struct × World :=
  match current_fs with
  | none => (none, w)
  | some cfs =>
    if !kmalloc_ok then (none, w)
    else
      let w1 : World := VNODE_DGET w w.vnlayer_sysroot_dentry
      let w2 : World := VNODE_DGET w1 (MDKI_FS_PWDDENTRY cfs)
      let w3 : World := MDKI_MNTGET w2 w.vnlayer_sysroot_mnt
      let w4 : World := MDKI_MNTGET w3 (MDKI_FS_PWDMNT cfs)
      let new_fs : fs_struct :=
        { umask := cfs.umask,
          root := w.vnlayer_sysroot_dentry,
          rootmnt := w.vnlayer_sysroot_mnt,
          pwd := MDKI_FS_PWDDENTRY cfs,
          pwdmnt := MDKI_FS_PWDMNT cfs,
          altroot := none,
          altrootmnt := none }
      if pre_2_6_27 then
        let w5 : World := if cfs.altroot ≠ none then VNODE_DGET w4 cfs.altroot else w4
        let w6 : World :=
          if cfs.altrootmnt ≠ none then MDKI_MNTGET w5 cfs.altrootmnt else w5
        (some { new_fs with altroot := cfs.altroot, altrootmnt := cfs.altrootmnt }, w6)
      else
        (some new_fs, w4)

/-- The function `vnlayer_free_temp_fs_struct`: the world after the call
(the release of the structure's storage is not part of the model). -/
def vnlayer_free_temp_fs_struct (pre_2_6_27 : Bool) (w : World)
    (fs : fs_struct) : World :=
  let w1 : World := VNODE_DPUT w (MDKI_FS_ROOTDENTRY fs)
  let w2 : World := VNODE_DPUT w1 (MDKI_FS_PWDDENTRY fs)
  let w3 : World := MDKI_MNTPUT w2 (MDKI_FS_ROOTMNT fs)
  let w4 : World := MDKI_MNTPUT w3 (MDKI_FS_PWDMNT fs)
  if pre_2_6_27 then
    let w5 : World := if fs.altroot ≠ none then VNODE_DPUT w4 fs.altroot else w4
    if fs.altrootmnt ≠ none then MDKI_MNTPUT w5 fs.altrootmnt else w5
  else
    w4

/-! ## Shadow object allocator -/

/-- The member of `struct inode_operations` that `vnlayer_shadow_inode`
tests: whether `follow_link` is non-NULL. -/
structure inode_operations where
  follow_link : Bool
deriving DecidableEq, Repr

/-- The member of `struct file_operations` that `vnlayer_shadow_inode` tests:
whether `mmap` is non-NULL. -/
structure file_operations where
  mmap : Bool
deriving DecidableEq, Repr

/-- The real inode as `vnlayer_shadow_inode` sees it: its operation tables
(`none` for a NULL table pointer) and its attributes. -/
structure real_inode_t where
  i_op : Option inode_operations
  i_fop : Option file_operations
  attrs : inode_attrs
deriving DecidableEq, Repr

/-- The fields of the shadow inode written by `vnlayer_shadow_inode`. -/
structure shadow_inode_t where
  i_sb : Option Nat
  i_op : Option op_table
  i_fop : Option op_table
  i_mode : Nat
  i_size : Nat
  i_mtime : Nat
deriving DecidableEq, Repr

/-- Modelled from the spec: `SHADOW_CP_INODAT` (macro of
`mvfs_linux_shadow.h`, not among the sources) applied to a shadow inode; the
spec says it copies the size, the mtime and the mode of the real object. -/
def SHADOW_CP_INODAT_shadow (real : inode_attrs) (shadow : shadow_inode_t) :
    shadow_inode_t :=
  { shadow with i_mode := real.i_mode, i_size := real.i_size,
                i_mtime := real.i_mtime }

/-- The kernel macro `S_ISLNK(m)`: `((m) & S_IFMT) == S_IFLNK`. -/
def S_ISLNK (m : Nat) : Bool := (m &&& S_IFMT) == S_IFLNK

/-- The function `vnlayer_shadow_inode`.  `HAVE_SHADOW_FILES` selects the
`#ifdef` branch; `d_sb` is `dentry->d_sb`.  The result is `none` when the
`ASSERT` of the branch without shadow files fails. -/
def vnlayer_shadow_inode (HAVE_SHADOW_FILES : Bool) (real_inode : real_inode_t)
    (d_sb : Option Nat) (shadow_inode : shadow_inode_t) : Option shadow_inode_t :=
  let s0 : shadow_inode_t := { shadow_inode with i_sb := d_sb }
  if HAVE_SHADOW_FILES then
    let s1 : shadow_inode_t :=
      match real_inode.i_op with
      | some ops =>
        if ops.follow_link then
          { s0 with i_op := some op_table.vnode_shadow_slink_inode_ops }
        else
          { s0 with i_op := some op_table.vnode_shadow_reg_inode_ops }
      | none => s0
    let s2 : shadow_inode_t :=
      match real_inode.i_fop with
      | some fops =>
        if fops.mmap then
          { s1 with i_fop := some op_table.vnode_shadow_mapped_file_ops }
        else
          { s1 with i_fop := some op_table.vnode_shadow_file_ops }
      | none => s1
    some (SHADOW_CP_INODAT_shadow real_inode.attrs s2)
  else
    if !S_ISLNK real_inode.attrs.i_mode then none
    else
      let s1 : shadow_inode_t := { s0 with i_fop := none }
      let s2 : shadow_inode_t :=
        { s1 with i_op := some op_table.vnode_shadow_slink_inode_ops }
      some (SHADOW_CP_INODAT_shadow real_inode.attrs s2)

/-! ## Type conversions -/

/-- The function `vnlayer_vtype_to_mode`: `none` when the `default` case
reaches `BUG()`. -/
def vnlayer_vtype_to_mode (vtype : VTYPE_T) : Option Nat :=
  match vtype with
  | VTYPE_T.VREG => some S_IFREG
  | VTYPE_T.VDIR => some S_IFDIR
  | VTYPE_T.VCHR => some S_IFCHR
  | VTYPE_T.VLNK => some S_IFLNK
  | VTYPE_T.VFIFO => some S_IFIFO
  | VTYPE_T.VNON => some 0
  | _ => none

/-! ## Later concrete inputs -/

/-- The storage `new_inode` hands out before `vnlayer_linux_new_clrvnode`
fills it in: one reference, everything else stale. -/
def raw_vnode : clr_vnode :=
  { i_count := 1, i_version := 77, i_ino := 1234, i_mode := 0o100600, i_size := 9,
    i_mtime := 5, a_ops := none, i_fop := none, i_op := none,
    v_sanity := 0, v_flag := 3, v_type := VTYPE_T.VSOCK,
    v_vfsp := none, v_op := none, v_data := some 8,
    v_dent := some 99, v_vfsmnt := some 98 }

/-- A world like `root_world` but with no backing store registered. -/
def unregistered_world : World :=
  { root_world with vnlayer_clrvnode_vfsp := none }

/-- A world holding at address 9 a vnode whose sanity tag is not the
expected `0x600d`. -/
def corrupt_world : World :=
  { root_world with vnodes := fun b =>
      if b = 9 then some { root_vnode with v_sanity := 0xbad } else root_world.vnodes b }

/-- The filesystem context of a caller that has changed its root to the
entry at address 20 and works in the entry at address 21, both on mount 2. -/
def chroot_fs : fs_struct :=
  { umask := 0o022, root := some 20, rootmnt := some 2, pwd := some 21,
    pwdmnt := some 2, altroot := none, altrootmnt := none }

/-- A real inode that has no inode-operation table and no file-operation
table. -/
def real_no_tables : real_inode_t :=
  { i_op := none, i_fop := none,
    attrs := { i_ino := 40, i_mode := 0o020600, i_size := 0, i_mtime := 3 } }

/-- A real symbolic link: a follow-link operation, a file table without
mmap. -/
def real_symlink : real_inode_t :=
  { i_op := some { follow_link := true }, i_fop := some { mmap := false },
    attrs := { i_ino := 41, i_mode := 0o120777, i_size := 11, i_mtime := 4 } }

/-- A freshly allocated shadow inode: no table installed yet. -/
def blank_shadow : shadow_inode_t :=
  { i_sb := none, i_op := none, i_fop := none, i_mode := 0, i_size := 0, i_mtime := 0 }

/-! ## Glue: mandatory locks -/

/-- The error number `EAGAIN` of `asm-generic/errno-base.h`. -/
def EAGAIN : Int := 11

/-- The fields of the kernel's `struct file_lock` read by
`vnlayer_has_mandlocks`; the chain through `fl_next` is a list. -/
structure file_lock where
  fl_flags : Nat
  fl_owner : Option Nat
deriving DecidableEq, Repr

/-- The inode as `vnlayer_has_mandlocks` sees it: the value of
`MANDATORY_LOCK(ip)` (the kernel's `mandatory_lock`) and the lock list
`i_flock`, in list order. -/
structure lock_inode where
  mandatory_lock : Int
  i_flock : List file_lock
deriving DecidableEq, Repr

/-- The `for` loop of `vnlayer_has_mandlocks` over the lock list: `-EAGAIN` at
the first lock that has an `FL_POSIX` bit and an owner other than
`current->files`, the initial status 0 when the list ends.  `FL_POSIX` is the
flag mask of `linux/fs.h`. -/
def has_mandlocks_loop (FL_POSIX : Nat) (current_files : Option Nat) :
    List file_lock → Int
  | [] => 0
  | flock :: rest =>
    if (flock.fl_flags &&& FL_POSIX) ≠ 0 ∧ flock.fl_owner ≠ current_files then
      -EAGAIN
    else
      has_mandlocks_loop FL_POSIX current_files rest

/-- The function `vnlayer_has_mandlocks`: the returned status and the inode
after the call (the function writes nothing; the locks taken around the loop
are not part of the model). -/
def vnlayer_has_mandlocks (FL_POSIX : Nat) (current_files : Option Nat)
    (ip : lock_inode) : Int × lock_inode :=
  if ip.mandatory_lock = 0 then
    (0, ip)
  else
    (has_mandlocks_loop FL_POSIX current_files ip.i_flock, ip)

/-! ## Glue: XDR opaque data -/

/-- The operation of an XDR stream (`xdrp->x_op`); `other` stands for any
value outside the three named ones. -/
inductive xdr_op where
  | XDR_ENCODE | XDR_DECODE | XDR_FREE | other
deriving DecidableEq, Repr

/-- An XDR stream over memory: the bytes put so far and the room left
(`x_handy`) for encoding, the bytes not yet consumed for decoding. -/
structure XDR where
  x_op : xdr_op
  x_out : List Nat
  x_handy : Nat
  x_in : List Nat
deriving DecidableEq, Repr

/-- The stream operation `XDR_PUTBYTES(xdrp, addr, len)`: appends the first
`len` bytes at `addr` when there is room for them, and fails without writing
otherwise. -/
def XDR_PUTBYTES (xdrp : XDR) (addr : List Nat) (len : Nat) : Bool × XDR :=
  if len ≤ xdrp.x_handy then
    (true, { xdrp with x_out := xdrp.x_out ++ addr.take len,
                       x_handy := xdrp.x_handy - len })
  else
    (false, xdrp)

/-- The stream operation `XDR_GETBYTES(xdrp, addr, len)`: consumes `len`
bytes and returns them when the stream holds that many, and fails without
consuming otherwise. -/
def XDR_GETBYTES (xdrp : XDR) (len : Nat) : Option (List Nat) × XDR :=
  if len ≤ xdrp.x_in.length then
    (some (xdrp.x_in.take len), { xdrp with x_in := xdrp.x_in.drop len })
  else
    (none, xdrp)

/-- The function `mdki_xdr_opaque`: the returned boolean, the stream after
the call and the contents of the buffer at `charp` after the call.
`BYTES_PER_XDR_UNIT` is the constant of the XDR headers, a parameter. -/
def mdki_xdr_opaque (BYTES_PER_XDR_UNIT : Nat) (xdrp : XDR) (charp : List Nat)
    (count : Nat) : Bool × XDR × List Nat :=
  if count = 0 then
    (true, xdrp, charp)
  else
    let padcount0 := count % BYTES_PER_XDR_UNIT
    let padcount := if padcount0 ≠ 0 then BYTES_PER_XDR_UNIT - padcount0 else padcount0
    match xdrp.x_op with
    | xdr_op.XDR_DECODE =>
      match XDR_GETBYTES xdrp count with
      | (none, x1) => (false, x1, charp)
      | (some bytes, x1) =>
        let charp1 := bytes ++ charp.drop count
        if padcount = 0 then (true, x1, charp1)
        else
          match XDR_GETBYTES x1 padcount with
          | (none, x2) => (false, x2, charp1)
          | (some _, x2) => (true, x2, charp1)
    | xdr_op.XDR_ENCODE =>
      match XDR_PUTBYTES xdrp charp count with
      | (false, x1) => (false, x1, charp)
      | (true, x1) =>
        if padcount = 0 then (true, x1, charp)
        else
          let nullbytes := List.replicate BYTES_PER_XDR_UNIT 0
          match XDR_PUTBYTES x1 nullbytes padcount with
          | (r, x2) => (r, x2, charp)
    | xdr_op.XDR_FREE => (false, xdrp, charp)
    | xdr_op.other => (false, xdrp, charp)

/-! ## Glue: concrete inputs -/

/-- The flag mask `FL_POSIX` of `linux/fs.h`. -/
def FL_POSIX_linux : Nat := 1

/-- An inode under mandatory locking with a flock-style lock of another
owner followed by a POSIX lock of the owner at address 70. -/
def locked_inode : lock_inode :=
  { mandatory_lock := 1,
    i_flock := [{ fl_flags := 2, fl_owner := some 71 },
                { fl_flags := 1, fl_owner := some 70 }] }

/-- An empty encoding stream with room for 16 bytes. -/
def enc_stream : XDR :=
  { x_op := xdr_op.XDR_ENCODE, x_out := [], x_handy := 16, x_in := [] }

/-- A decoding stream holding five data bytes, three pad bytes and one more
byte. -/
def dec_stream : XDR :=
  { x_op := xdr_op.XDR_DECODE, x_out := [], x_handy := 0,
    x_in := [104, 101, 108, 108, 111, 0, 0, 0, 9] }

/-! # Theorems -/

/-! ## Alias resolver: lemmas on the scan -/

theorem scan_aliases_some (K : DcacheBits) (ino : inode) (parent : Option Nat)
    (name : Option (List Nat)) (ops : Option Nat) (wc : Bool) :
    ∀ (l : List dentry) (i : Nat),
      scan_aliases K ino parent name ops wc l = some i →
      (∃ d, l[i]? = some d ∧ alias_accepted K ino parent name ops wc d = true) ∧
      ∀ j e, j < i → l[j]? = some e →
        alias_accepted K ino parent name ops wc e = false := by
  intro l
  induction l with
  | nil => intro i h; simp [scan_aliases] at h
  | cons d rest ih =>
    intro i h
    unfold scan_aliases at h
    by_cases hd : alias_accepted K ino parent name ops wc d = true
    · rw [if_pos hd] at h
      cases h
      refine ⟨⟨d, by simp, hd⟩, ?_⟩
      intro j e hj
      omega
    · rw [if_neg hd] at h
      cases hs : scan_aliases K ino parent name ops wc rest with
      | none => rw [hs] at h; simp at h
      | some k =>
        rw [hs] at h
        simp only [Option.map_some', Option.some.injEq] at h
        subst h
        obtain ⟨⟨d', hd', hacc⟩, hmin⟩ := ih k hs
        refine ⟨⟨d', by simpa using hd', hacc⟩, ?_⟩
        intro j e hj he
        cases j with
        | zero =>
          simp only [List.getElem?_cons_zero, Option.some.injEq] at he
          subst he
          simpa using hd
        | succ j =>
          simp only [List.getElem?_cons_succ] at he
          exact hmin j e (by omega) he

theorem scan_aliases_none (K : DcacheBits) (ino : inode) (parent : Option Nat)
    (name : Option (List Nat)) (ops : Option Nat) (wc : Bool) :
    ∀ (l : List dentry),
      scan_aliases K ino parent name ops wc l = none ↔
      ∀ d ∈ l, alias_accepted K ino parent name ops wc d = false := by
  intro l
  induction l with
  | nil => simp [scan_aliases]
  | cons d rest ih =>
    unfold scan_aliases
    by_cases hd : alias_accepted K ino parent name ops wc d = true
    · rw [if_pos hd]
      simp [hd]
    · rw [if_neg hd]
      have hd' : alias_accepted K ino parent name ops wc d = false := by
        simpa using hd
      simp [ih, hd']

theorem scan_aliases_of_mem (K : DcacheBits) (ino : inode)
    (parent : Option Nat) (name : Option (List Nat)) (ops : Option Nat)
    (wc : Bool) (l : List dentry) (d : dentry) (hd : d ∈ l)
    (hacc : alias_accepted K ino parent name ops wc d = true) :
    ∃ i, scan_aliases K ino parent name ops wc l = some i := by
  cases hs : scan_aliases K ino parent name ops wc l with
  | some i => exact ⟨i, rfl⟩
  | none =>
    have := (scan_aliases_none K ino parent name ops wc l).1 hs d hd
    rw [this] at hacc
    cases hacc

theorem take_alias_length (K : DcacheBits) :
    ∀ (i : Nat) (l : List dentry), (take_alias K i l).length = l.length := by
  intro i l
  induction l generalizing i with
  | nil => cases i <;> simp [take_alias]
  | cons d rest ih =>
    cases i with
    | zero => simp [take_alias]
    | succ i => simp [take_alias, ih]

theorem take_alias_getElem?_eq (K : DcacheBits) :
    ∀ (i : Nat) (l : List dentry),
      (take_alias K i l)[i]? = l[i]?.map (fun d => clear_referenced K (dget d)) := by
  intro i l
  induction l generalizing i with
  | nil => cases i <;> simp [take_alias]
  | cons d rest ih =>
    cases i with
    | zero => simp [take_alias]
    | succ i => simp [take_alias, ih]

theorem take_alias_getElem?_ne (K : DcacheBits) :
    ∀ (i j : Nat) (l : List dentry), j ≠ i →
      (take_alias K i l)[j]? = l[j]? := by
  intro i j l
  induction l generalizing i j with
  | nil => intro _; cases i <;> simp [take_alias]
  | cons d rest ih =>
    intro hne
    cases i with
    | zero =>
      cases j with
      | zero => exact absurd rfl hne
      | succ j => simp [take_alias]
    | succ i =>
      cases j with
      | zero => simp [take_alias]
      | succ j =>
        simp only [take_alias, List.getElem?_cons_succ]
        exact ih i j (by omega)

/-! ## Alias resolver: the loop body against the spec's conditions -/

theorem ops_test_iff (ops : Option Nat) (d : dentry) :
    (ops != none && ops != d.d_op) = false ↔ ops_cond ops d := by
  unfold ops_cond
  cases ops with
  | none => simp
  | some a => simp

theorem parent_test_iff (K : DcacheBits) (parent : Option Nat) (wc : Bool)
    (d : dentry) :
    (parent == none || some d.d_parent == parent ||
      (!wc && IS_ROOT d && (d.d_flags &&& K.NFSD_DCACHE_DISCON) != 0)) = true ↔
    (parent = none ∨ parent = some d.d_parent ∨
      (wc = false ∧ IS_ROOT d = true ∧ is_connected K d = false)) := by
  unfold is_connected
  cases parent with
  | none => simp
  | some a =>
    simp only [Bool.or_eq_true, Bool.and_eq_true, beq_iff_eq, Option.some.injEq,
      Bool.not_eq_true', bne_iff_ne, ne_eq, beq_eq_false_iff_ne, reduceCtorEq, false_or]
    constructor
    · rintro (h | ⟨⟨h1, h2⟩, h3⟩)
      · exact Or.inl h.symm
      · exact Or.inr ⟨h1, h2, h3⟩
    · rintro (h | ⟨h1, h2, h3⟩)
      · exact Or.inl h.symm
      · exact Or.inr ⟨⟨h1, h2⟩, h3⟩

theorem name_test_iff (ino : inode) (name : Option (List Nat)) (d : dentry) :
    ((!S_ISDIR ino.i_mode &&
        (match name with
         | some n => !vnlayer_names_eq d.d_name n
         | none => false)) = false ∧
      (!S_ISDIR ino.i_mode && d_unhashed d) = false) ↔
    name_cond ino name d := by
  unfold name_cond vnlayer_names_eq
  cases hdir : S_ISDIR ino.i_mode with
  | true => simp
  | false =>
    cases name with
    | none => simp
    | some n =>
      simp only [Bool.not_false, Bool.true_and, Bool.not_eq_false', beq_iff_eq,
        forall_const, reduceCtorEq, Option.some.injEq, false_or]
      constructor
      · rintro ⟨h1, h2⟩; exact ⟨h1.symm, h2⟩
      · rintro ⟨h1, h2⟩; exact ⟨h1.symm, h2⟩

theorem alias_accepted_eq_true_iff (K : DcacheBits) (ino : inode)
    (parent : Option Nat) (name : Option (List Nat)) (ops : Option Nat)
    (wc : Bool) (d : dentry) :
    alias_accepted K ino parent name ops wc d = true ↔
      ops_cond ops d ∧
      (parent = none ∨ parent = some d.d_parent ∨
        (wc = false ∧ IS_ROOT d = true ∧ is_connected K d = false)) ∧
      name_cond ino name d ∧
      (wc = false ∨ is_connected K d = true) := by
  rw [← ops_test_iff, ← parent_test_iff, ← name_test_iff]
  unfold alias_accepted is_connected
  generalize (ops != none && ops != d.d_op) = b1
  generalize (parent == none || some d.d_parent == parent ||
      (!wc && IS_ROOT d && (d.d_flags &&& K.NFSD_DCACHE_DISCON) != 0)) = b2
  generalize (!S_ISDIR ino.i_mode &&
        (match name with
         | some n => !vnlayer_names_eq d.d_name n
         | none => false)) = b3
  generalize (!S_ISDIR ino.i_mode && d_unhashed d) = b4
  generalize ((d.d_flags &&& K.NFSD_DCACHE_DISCON) == 0) = b5
  cases b1 <;> cases b2 <;> cases b3 <;> cases b4 <;> cases b5 <;> cases wc <;> simp

theorem alias_accepted_connected_iff (K : DcacheBits) (ino : inode)
    (parent : Option Nat) (name : Option (List Nat)) (ops : Option Nat)
    (d : dentry) :
    alias_accepted K ino parent name ops true d = true ↔
      connected_pass_cond K ino parent name ops d := by
  rw [alias_accepted_eq_true_iff]
  unfold connected_pass_cond parent_cond
  constructor
  · rintro ⟨h1, h2, h3, h4⟩
    have h4' : is_connected K d = true := by simpa using h4
    refine ⟨h1, ?_, h3, h4'⟩
    rcases h2 with h | h | h
    · exact Or.inl h
    · exact Or.inr (Or.inl h)
    · exact absurd h.1 (by simp)
  · rintro ⟨h1, h2, h3, h4⟩
    refine ⟨h1, ?_, h3, Or.inr h4⟩
    rcases h2 with h | h | h
    · exact Or.inl h
    · exact Or.inr (Or.inl h)
    · rw [h4] at h; exact absurd h.2 (by simp)

theorem alias_accepted_fallback_iff (K : DcacheBits) (ino : inode)
    (parent : Option Nat) (name : Option (List Nat)) (ops : Option Nat)
    (d : dentry) :
    alias_accepted K ino parent name ops false d = true ↔
      fallback_pass_cond K ino parent name ops d := by
  rw [alias_accepted_eq_true_iff]
  unfold fallback_pass_cond parent_cond
  simp

theorem alias_accepted_mono (K : DcacheBits) (ino : inode)
    (parent : Option Nat) (name : Option (List Nat)) (ops : Option Nat)
    (d : dentry) (h : alias_accepted K ino parent name ops true d = true) :
    alias_accepted K ino parent name ops false d = true := by
  rw [alias_accepted_connected_iff] at h
  rw [alias_accepted_fallback_iff]
  exact ⟨h.1, h.2.1, h.2.2.1⟩

/-! ## Alias resolver: general facts about a run -/

theorem run_found_connected (K : DcacheBits) (ino : inode)
    (parent : Option Nat) (name : Option (List Nat)) (ops : Option Nat)
    (i : Nat) (h : scan_aliases K ino parent name ops true ino.i_dentry = some i) :
    vnlayer_inode2dentry_run K ino parent name ops =
      { found := some i, want_connected := true,
        ino := { ino with i_dentry := take_alias K i ino.i_dentry } } := by
  unfold vnlayer_inode2dentry_run
  have hne : ino.i_dentry.isEmpty = false := by
    cases hl : ino.i_dentry with
    | nil => rw [hl] at h; simp [scan_aliases] at h
    | cons a l => rfl
  simp [hne, h]

theorem run_found_fallback (K : DcacheBits) (ino : inode)
    (parent : Option Nat) (name : Option (List Nat)) (ops : Option Nat)
    (hne : ino.i_dentry ≠ [])
    (h : scan_aliases K ino parent name ops true ino.i_dentry = none) :
    vnlayer_inode2dentry_run K ino parent name ops =
      match scan_aliases K ino parent name ops false ino.i_dentry with
      | some i =>
        { found := some i, want_connected := false,
          ino := { ino with i_dentry := take_alias K i ino.i_dentry } }
      | none => { found := none, want_connected := false, ino := ino } := by
  unfold vnlayer_inode2dentry_run
  have hne' : ino.i_dentry.isEmpty = false := by
    cases hl : ino.i_dentry with
    | nil => exact absurd hl hne
    | cons a l => rfl
  simp [hne', h]

theorem run_empty (K : DcacheBits) (ino : inode)
    (parent : Option Nat) (name : Option (List Nat)) (ops : Option Nat)
    (h : ino.i_dentry = []) :
    vnlayer_inode2dentry_run K ino parent name ops =
      { found := none, want_connected := true, ino := ino } := by
  unfold vnlayer_inode2dentry_run
  simp [h]

/-- The shape of every run: either nothing is found and the object is
untouched, or the alias at the returned position was taken. -/
theorem run_shape (K : DcacheBits) (ino : inode)
    (parent : Option Nat) (name : Option (List Nat)) (ops : Option Nat) :
    ((vnlayer_inode2dentry_run K ino parent name ops).found = none ∧
      (vnlayer_inode2dentry_run K ino parent name ops).ino = ino) ∨
    (∃ i, (vnlayer_inode2dentry_run K ino parent name ops).found = some i ∧
      (vnlayer_inode2dentry_run K ino parent name ops).ino =
        { ino with i_dentry := take_alias K i ino.i_dentry } ∧
      (scan_aliases K ino parent name ops true ino.i_dentry = some i ∨
        scan_aliases K ino parent name ops false ino.i_dentry = some i)) := by
  by_cases hne : ino.i_dentry = []
  · rw [run_empty K ino parent name ops hne]
    exact Or.inl ⟨rfl, rfl⟩
  · cases h1 : scan_aliases K ino parent name ops true ino.i_dentry with
    | some i =>
      rw [run_found_connected K ino parent name ops i h1]
      exact Or.inr ⟨i, rfl, rfl, Or.inl rfl⟩
    | none =>
      rw [run_found_fallback K ino parent name ops hne h1]
      cases h2 : scan_aliases K ino parent name ops false ino.i_dentry with
      | some i => exact Or.inr ⟨i, rfl, rfl, Or.inr rfl⟩
      | none => exact Or.inl ⟨rfl, rfl⟩

theorem unconstrained_connected_accepted (K : DcacheBits) (ino : inode)
    (d : dentry) (hc : is_connected K d = true)
    (he : S_ISDIR ino.i_mode = true ∨ d_unhashed d = false) :
    alias_accepted K ino none none none true d = true := by
  rw [alias_accepted_connected_iff]
  refine ⟨Or.inl rfl, Or.inl rfl, ?_, hc⟩
  intro hdir
  rcases he with he | he
  · rw [he] at hdir; cases hdir
  · exact ⟨Or.inl rfl, he⟩

theorem unconstrained_fallback_accepted (K : DcacheBits) (ino : inode)
    (d : dentry) (he : S_ISDIR ino.i_mode = true ∨ d_unhashed d = false) :
    alias_accepted K ino none none none false d = true := by
  rw [alias_accepted_fallback_iff]
  refine ⟨Or.inl rfl, Or.inl rfl, ?_⟩
  intro hdir
  rcases he with he | he
  · rw [he] at hdir; cases hdir
  · exact ⟨Or.inl rfl, he⟩

/-! ## Alias resolver: the claims -/

/-- C1 (as stated, refuted): the regular file `file_conn_unhashed` has a
connected alias and a disconnected alias, yet the unconstrained resolve
returns the alias at position 1, which is the disconnected one: the
connected alias is unhashed and is skipped by the hashed test. -/
theorem c1_counterexample :
    alias_conn_unhashed ∈ file_conn_unhashed.i_dentry ∧
    is_connected linux_bits alias_conn_unhashed = true ∧
    alias_disc ∈ file_conn_unhashed.i_dentry ∧
    is_connected linux_bits alias_disc = false ∧
    (vnlayer_inode2dentry_internal_no_lock linux_bits file_conn_unhashed
      none none none).1 = some 1 ∧
    file_conn_unhashed.i_dentry[1]? = some alias_disc := by
  decide

/-- C1 (amended): for every object whose alias list contains a connected
alias that passes the hashed test (the object is a directory, or the alias
is hashed) and a disconnected alias, the unconstrained resolve (parent,
name and ops all NULL) returns an alias of the list that is connected. -/
theorem c1_unconstrained_returns_connected (K : DcacheBits) (ino : inode)
    (hconn : ∃ d ∈ ino.i_dentry, is_connected K d = true ∧
      (S_ISDIR ino.i_mode = true ∨ d_unhashed d = false))
    (_hdisc : ∃ d ∈ ino.i_dentry, is_connected K d = false) :
    ∃ i d,
      (vnlayer_inode2dentry_internal_no_lock K ino none none none).1 = some i ∧
      ino.i_dentry[i]? = some d ∧ is_connected K d = true := by
  obtain ⟨d, hd, hc, he⟩ := hconn
  obtain ⟨i, hi⟩ := scan_aliases_of_mem K ino none none none true ino.i_dentry d hd
    (unconstrained_connected_accepted K ino d hc he)
  obtain ⟨⟨e, he1, he2⟩, _⟩ := scan_aliases_some K ino none none none true _ i hi
  refine ⟨i, e, ?_, he1, ?_⟩
  · unfold vnlayer_inode2dentry_internal_no_lock
    rw [run_found_connected K ino none none none i hi]
  · rw [alias_accepted_connected_iff] at he2
    exact he2.2.2.2

/-- Witness of C1 (amended) on a regular file with a disconnected alias
followed by a connected, hashed alias. -/
theorem c1_unconstrained_returns_connected_witness :
    ∃ i d,
      (vnlayer_inode2dentry_internal_no_lock linux_bits file_two_aliases
        none none none).1 = some i ∧
      file_two_aliases.i_dentry[i]? = some d ∧
      is_connected linux_bits d = true :=
  c1_unconstrained_returns_connected linux_bits file_two_aliases
    ⟨alias_conn, by decide, by decide, by decide⟩
    ⟨alias_disc, by decide, by decide⟩

/-- C2 (as stated, refuted): the regular file `file_only_disc_unhashed` has a
non-empty alias list holding only a disconnected alias, yet the
unconstrained resolve returns NULL: the alias is unhashed and is skipped in
both passes. -/
theorem c2_counterexample :
    file_only_disc_unhashed.i_dentry = [alias_disc_unhashed] ∧
    is_connected linux_bits alias_disc_unhashed = false ∧
    (vnlayer_inode2dentry_internal_no_lock linux_bits file_only_disc_unhashed
      none none none).1 = none := by
  decide

/-- C2 (amended): for every object whose alias list is non-empty, holds only
disconnected aliases, and holds at least one alias that passes the hashed
test (the object is a directory, or the alias is hashed), the unconstrained
resolve does not return NULL: it returns a disconnected alias of the list,
and the run went through the second pass (`want_connected` ends FALSE). -/
theorem c2_only_disconnected_found_in_fallback (K : DcacheBits) (ino : inode)
    (hne : ino.i_dentry ≠ [])
    (hall : ∀ d ∈ ino.i_dentry, is_connected K d = false)
    (hel : ∃ d ∈ ino.i_dentry, S_ISDIR ino.i_mode = true ∨ d_unhashed d = false) :
    ∃ i d,
      (vnlayer_inode2dentry_internal_no_lock K ino none none none).1 = some i ∧
      ino.i_dentry[i]? = some d ∧ is_connected K d = false ∧
      (vnlayer_inode2dentry_run K ino none none none).want_connected = false := by
  have h1 : scan_aliases K ino none none none true ino.i_dentry = none := by
    rw [scan_aliases_none]
    intro d hd
    cases hacc : alias_accepted K ino none none none true d with
    | false => rfl
    | true =>
      rw [alias_accepted_connected_iff] at hacc
      have := hall d hd
      rw [hacc.2.2.2] at this
      cases this
  obtain ⟨d, hd, he⟩ := hel
  obtain ⟨i, hi⟩ := scan_aliases_of_mem K ino none none none false ino.i_dentry d hd
    (unconstrained_fallback_accepted K ino d he)
  obtain ⟨⟨e, he1, _⟩, _⟩ := scan_aliases_some K ino none none none false _ i hi
  have hrun := run_found_fallback K ino none none none hne h1
  rw [hi] at hrun
  refine ⟨i, e, ?_, he1, hall e (List.getElem?_mem he1), ?_⟩
  · unfold vnlayer_inode2dentry_internal_no_lock
    rw [hrun]
  · rw [hrun]

/-- Witness of C2 (amended) on a regular file with one hashed, disconnected
alias. -/
theorem c2_only_disconnected_found_in_fallback_witness :
    ∃ i d,
      (vnlayer_inode2dentry_internal_no_lock linux_bits file_only_disc
        none none none).1 = some i ∧
      file_only_disc.i_dentry[i]? = some d ∧
      is_connected linux_bits d = false ∧
      (vnlayer_inode2dentry_run linux_bits file_only_disc
        none none none).want_connected = false :=
  c2_only_disconnected_found_in_fallback linux_bits file_only_disc
    (by decide) (by decide) ⟨alias_disc, by decide, by decide⟩

/-- C3: in the connected pass an alias is accepted if and only if it
satisfies conditions (i)-(iv), and whenever some alias of the list satisfies
(i)-(iv) the call returns the first such alias in list order. -/
theorem c3_connected_pass (K : DcacheBits) (ino : inode)
    (parent : Option Nat) (name : Option (List Nat)) (ops : Option Nat)
    (hex : ∃ d ∈ ino.i_dentry, connected_pass_cond K ino parent name ops d) :
    (∀ e, alias_accepted K ino parent name ops true e = true ↔
      connected_pass_cond K ino parent name ops e) ∧
    ∃ i d,
      (vnlayer_inode2dentry_internal_no_lock K ino parent name ops).1 = some i ∧
      ino.i_dentry[i]? = some d ∧
      connected_pass_cond K ino parent name ops d ∧
      ∀ j e, j < i → ino.i_dentry[j]? = some e →
        ¬ connected_pass_cond K ino parent name ops e := by
  refine ⟨alias_accepted_connected_iff K ino parent name ops, ?_⟩
  obtain ⟨d, hd, hc⟩ := hex
  obtain ⟨i, hi⟩ := scan_aliases_of_mem K ino parent name ops true ino.i_dentry d hd
    ((alias_accepted_connected_iff K ino parent name ops d).2 hc)
  obtain ⟨⟨e, he1, he2⟩, hmin⟩ := scan_aliases_some K ino parent name ops true _ i hi
  refine ⟨i, e, ?_, he1, (alias_accepted_connected_iff K ino parent name ops e).1 he2, ?_⟩
  · unfold vnlayer_inode2dentry_internal_no_lock
    rw [run_found_connected K ino parent name ops i hi]
  · intro j e' hj he' hcond
    have := hmin j e' hj he'
    rw [(alias_accepted_connected_iff K ino parent name ops e').2 hcond] at this
    cases this

/-- Witness of C3: on a regular file with a disconnected alias followed by a
connected one, a resolve constrained to the parent at address 10 and the
name of the connected alias returns that alias, at position 1. -/
theorem c3_connected_pass_witness :
    (∀ e, alias_accepted linux_bits file_two_aliases (some 10) (some [97]) none
        true e = true ↔
      connected_pass_cond linux_bits file_two_aliases (some 10) (some [97])
        none e) ∧
    ∃ i d,
      (vnlayer_inode2dentry_internal_no_lock linux_bits file_two_aliases
        (some 10) (some [97]) none).1 = some i ∧
      file_two_aliases.i_dentry[i]? = some d ∧
      connected_pass_cond linux_bits file_two_aliases (some 10) (some [97])
        none d ∧
      ∀ j e, j < i → file_two_aliases.i_dentry[j]? = some e →
        ¬ connected_pass_cond linux_bits file_two_aliases (some 10)
          (some [97]) none e :=
  c3_connected_pass linux_bits file_two_aliases (some 10) (some [97]) none
    ⟨alias_conn, by decide,
      (alias_accepted_connected_iff linux_bits file_two_aliases (some 10)
        (some [97]) none alias_conn).1 (by decide)⟩

/-- C4: the run goes through the second scan exactly when the alias list is
non-empty and the connected pass accepted no alias; when the connected pass
accepted none, a returned alias is the first alias in list order that
satisfies the ops, parent and (for non-directories) name and hashed
conditions, whatever its connectivity; the result is NULL exactly when no
alias of the list satisfies these conditions, in particular when the list is
empty. -/
theorem c4_fallback_pass (K : DcacheBits) (ino : inode)
    (parent : Option Nat) (name : Option (List Nat)) (ops : Option Nat) :
    ((vnlayer_inode2dentry_run K ino parent name ops).want_connected = false ↔
      (ino.i_dentry ≠ [] ∧
        ∀ d ∈ ino.i_dentry, ¬ connected_pass_cond K ino parent name ops d)) ∧
    ((∀ d ∈ ino.i_dentry, ¬ connected_pass_cond K ino parent name ops d) →
      ∀ i, (vnlayer_inode2dentry_internal_no_lock K ino parent name ops).1 = some i →
        ∃ d, ino.i_dentry[i]? = some d ∧
          fallback_pass_cond K ino parent name ops d ∧
          ∀ j e, j < i → ino.i_dentry[j]? = some e →
            ¬ fallback_pass_cond K ino parent name ops e) ∧
    ((vnlayer_inode2dentry_internal_no_lock K ino parent name ops).1 = none ↔
      ∀ d ∈ ino.i_dentry, ¬ fallback_pass_cond K ino parent name ops d) ∧
    (ino.i_dentry = [] →
      (vnlayer_inode2dentry_internal_no_lock K ino parent name ops).1 = none) := by
  have hconn_none :
      scan_aliases K ino parent name ops true ino.i_dentry = none ↔
        ∀ d ∈ ino.i_dentry, ¬ connected_pass_cond K ino parent name ops d := by
    rw [scan_aliases_none]
    constructor
    · intro h d hd hc
      have := h d hd
      rw [(alias_accepted_connected_iff K ino parent name ops d).2 hc] at this
      cases this
    · intro h d hd
      cases hacc : alias_accepted K ino parent name ops true d with
      | false => rfl
      | true =>
        exact absurd ((alias_accepted_connected_iff K ino parent name ops d).1 hacc) (h d hd)
  have hfall_none :
      scan_aliases K ino parent name ops false ino.i_dentry = none ↔
        ∀ d ∈ ino.i_dentry, ¬ fallback_pass_cond K ino parent name ops d := by
    rw [scan_aliases_none]
    constructor
    · intro h d hd hc
      have := h d hd
      rw [(alias_accepted_fallback_iff K ino parent name ops d).2 hc] at this
      cases this
    · intro h d hd
      cases hacc : alias_accepted K ino parent name ops false d with
      | false => rfl
      | true =>
        exact absurd ((alias_accepted_fallback_iff K ino parent name ops d).1 hacc) (h d hd)
  unfold vnlayer_inode2dentry_internal_no_lock
  by_cases hne : ino.i_dentry = []
  · rw [run_empty K ino parent name ops hne]
    simp [hne]
  · cases h1 : scan_aliases K ino parent name ops true ino.i_dentry with
    | some i =>
      have hnot : ¬ ∀ d ∈ ino.i_dentry, ¬ connected_pass_cond K ino parent name ops d := by
        intro h
        rw [hconn_none.2 h] at h1
        cases h1
      obtain ⟨⟨e, he1, he2⟩, _⟩ := scan_aliases_some K ino parent name ops true _ i h1
      rw [run_found_connected K ino parent name ops i h1]
      refine ⟨?_, ?_, ?_, ?_⟩
      · simp only [Bool.true_eq_false, false_iff, not_and]
        intro _; exact hnot
      · intro h; exact absurd h hnot
      · simp only [reduceCtorEq, false_iff]
        intro h
        exact h e (List.getElem?_mem he1)
          ((alias_accepted_fallback_iff K ino parent name ops e).1
            (alias_accepted_mono K ino parent name ops e he2))
      · intro h; exact absurd h hne
    | none =>
      have hall := hconn_none.1 h1
      rw [run_found_fallback K ino parent name ops hne h1]
      cases h2 : scan_aliases K ino parent name ops false ino.i_dentry with
      | some i =>
        obtain ⟨⟨e, he1, he2⟩, hmin⟩ := scan_aliases_some K ino parent name ops false _ i h2
        refine ⟨?_, ?_, ?_, ?_⟩
        · simp only [true_iff]; exact ⟨hne, hall⟩
        · intro _ k hk
          simp only [Option.some.injEq] at hk
          subst hk
          refine ⟨e, he1, (alias_accepted_fallback_iff K ino parent name ops e).1 he2, ?_⟩
          intro j e' hj he' hcond
          have := hmin j e' hj he'
          rw [(alias_accepted_fallback_iff K ino parent name ops e').2 hcond] at this
          cases this
        · simp only [reduceCtorEq, false_iff]
          intro h
          exact h e (List.getElem?_mem he1)
            ((alias_accepted_fallback_iff K ino parent name ops e).1 he2)
        · intro h; exact absurd h hne
      | none =>
        refine ⟨?_, ?_, ?_, ?_⟩
        · simp only [true_iff]; exact ⟨hne, hall⟩
        · intro _ k hk; cases hk
        · simp only [true_iff]; exact hfall_none.1 h2
        · intro h; exact absurd h hne

/-! ## Alias resolver: effect of a resolve -/

theorem clear_mask_and_self (x r : Nat) :
    (x &&& (2 ^ 32 - 1 - r)) &&& r = 0 := by
  by_cases hr : r < 2 ^ 32
  · apply Nat.eq_of_testBit_eq
    intro k
    have hm : 2 ^ 32 - 1 - r = 2 ^ 32 - (r + 1) := by omega
    rw [hm, Nat.testBit_and, Nat.testBit_and, Nat.testBit_two_pow_sub_succ hr,
      Nat.zero_testBit]
    cases x.testBit k <;> cases r.testBit k <;> simp
  · have hm : 2 ^ 32 - 1 - r = 0 := by omega
    rw [hm]
    simp

theorem clear_mask_other_bits (x r : Nat) (hx : x < 2 ^ 32) (hr : r < 2 ^ 32)
    (k : Nat) (hk : r.testBit k = false) :
    (x &&& (2 ^ 32 - 1 - r)).testBit k = x.testBit k := by
  have hm : 2 ^ 32 - 1 - r = 2 ^ 32 - (r + 1) := by omega
  rw [hm, Nat.testBit_and, Nat.testBit_two_pow_sub_succ hr, hk]
  by_cases h32 : k < 32
  · simp [h32]
  · have hlt : x < 2 ^ k :=
      Nat.lt_of_lt_of_le hx (Nat.pow_le_pow_right (by decide) (by omega))
    rw [Nat.testBit_lt_two_pow hlt]
    simp

/-- C5: when the call returns the alias at position `i`, that alias has one
more reference than before, its DCACHE_REFERENCED bits are clear, every
other flag bit and every other field is unchanged, and every other alias of
the object (and the object's mode) is unchanged; when the call returns NULL
the object, with all its aliases, is unchanged.  The flags are 32-bit
values. -/
theorem c5_resolve_effect (K : DcacheBits) (ino : inode)
    (parent : Option Nat) (name : Option (List Nat)) (ops : Option Nat)
    (hK : K.DCACHE_REFERENCED < 2 ^ 32)
    (hfl : ∀ d ∈ ino.i_dentry, d.d_flags < 2 ^ 32) :
    (∀ i, (vnlayer_inode2dentry_internal_no_lock K ino parent name ops).1 = some i →
      ∃ d d',
        ino.i_dentry[i]? = some d ∧
        (vnlayer_inode2dentry_internal_no_lock K ino parent name ops).2.i_dentry[i]?
          = some d' ∧
        d'.d_count = d.d_count + 1 ∧
        d'.d_flags &&& K.DCACHE_REFERENCED = 0 ∧
        (∀ k, K.DCACHE_REFERENCED.testBit k = false →
          d'.d_flags.testBit k = d.d_flags.testBit k) ∧
        d'.addr = d.addr ∧ d'.d_parent = d.d_parent ∧ d'.d_name = d.d_name ∧
        d'.d_op = d.d_op ∧ d'.unhashed = d.unhashed ∧
        (∀ j, j ≠ i →
          (vnlayer_inode2dentry_internal_no_lock K ino parent name ops).2.i_dentry[j]?
            = ino.i_dentry[j]?) ∧
        (vnlayer_inode2dentry_internal_no_lock K ino parent name ops).2.i_dentry.length
          = ino.i_dentry.length ∧
        (vnlayer_inode2dentry_internal_no_lock K ino parent name ops).2.i_mode
          = ino.i_mode) ∧
    ((vnlayer_inode2dentry_internal_no_lock K ino parent name ops).1 = none →
      (vnlayer_inode2dentry_internal_no_lock K ino parent name ops).2 = ino) := by
  unfold vnlayer_inode2dentry_internal_no_lock
  dsimp only
  rcases run_shape K ino parent name ops with ⟨hf, hi⟩ | ⟨i, hf, hi, hs⟩
  · rw [hf, hi]
    exact ⟨fun i h => (by cases h), fun _ => rfl⟩
  · rw [hf, hi]
    refine ⟨?_, fun h => (by cases h)⟩
    intro k hk
    simp only [Option.some.injEq] at hk
    subst hk
    have hget : ∃ d, ino.i_dentry[i]? = some d := by
      rcases hs with hs | hs
      · obtain ⟨⟨d, hd, _⟩, _⟩ := scan_aliases_some K ino parent name ops true _ i hs
        exact ⟨d, hd⟩
      · obtain ⟨⟨d, hd, _⟩, _⟩ := scan_aliases_some K ino parent name ops false _ i hs
        exact ⟨d, hd⟩
    obtain ⟨d, hd⟩ := hget
    refine ⟨d, clear_referenced K (dget d), hd, ?_, rfl, ?_, ?_, rfl, rfl, rfl, rfl, rfl,
      ?_, ?_, rfl⟩
    · show (take_alias K i ino.i_dentry)[i]? = _
      rw [take_alias_getElem?_eq, hd]
      rfl
    · exact clear_mask_and_self d.d_flags K.DCACHE_REFERENCED
    · intro k hk
      exact clear_mask_other_bits d.d_flags K.DCACHE_REFERENCED
        (hfl d (List.getElem?_mem hd)) hK k hk
    · intro j hj
      exact take_alias_getElem?_ne K i j ino.i_dentry hj
    · exact take_alias_length K i ino.i_dentry

/-- Witness of C5 on a regular file with a disconnected alias followed by a
connected, recently referenced alias. -/
theorem c5_resolve_effect_witness :
    (∀ i, (vnlayer_inode2dentry_internal_no_lock linux_bits file_two_aliases
        none none none).1 = some i →
      ∃ d d',
        file_two_aliases.i_dentry[i]? = some d ∧
        (vnlayer_inode2dentry_internal_no_lock linux_bits file_two_aliases
          none none none).2.i_dentry[i]? = some d' ∧
        d'.d_count = d.d_count + 1 ∧
        d'.d_flags &&& linux_bits.DCACHE_REFERENCED = 0 ∧
        (∀ k, linux_bits.DCACHE_REFERENCED.testBit k = false →
          d'.d_flags.testBit k = d.d_flags.testBit k) ∧
        d'.addr = d.addr ∧ d'.d_parent = d.d_parent ∧ d'.d_name = d.d_name ∧
        d'.d_op = d.d_op ∧ d'.unhashed = d.unhashed ∧
        (∀ j, j ≠ i →
          (vnlayer_inode2dentry_internal_no_lock linux_bits file_two_aliases
            none none none).2.i_dentry[j]? = file_two_aliases.i_dentry[j]?) ∧
        (vnlayer_inode2dentry_internal_no_lock linux_bits file_two_aliases
          none none none).2.i_dentry.length = file_two_aliases.i_dentry.length ∧
        (vnlayer_inode2dentry_internal_no_lock linux_bits file_two_aliases
          none none none).2.i_mode = file_two_aliases.i_mode) ∧
    ((vnlayer_inode2dentry_internal_no_lock linux_bits file_two_aliases
        none none none).1 = none →
      (vnlayer_inode2dentry_internal_no_lock linux_bits file_two_aliases
        none none none).2 = file_two_aliases) :=
  c5_resolve_effect linux_bits file_two_aliases none none none
    (by decide) (by decide)

/-! ## Credential switcher: lemmas -/

theorem cmp_cred2grp_loop_eq_zero (cr : CRED_T) (grp : group_info) :
    ∀ (n i : Nat),
      (∀ k, k < n → cr_group_at cr (i + k) = GROUP_AT grp (i + k)) →
      cmp_cred2grp_loop cr grp i n = 0 := by
  intro n
  induction n with
  | zero => intro i _; rfl
  | succ n ih =>
    intro i h
    unfold cmp_cred2grp_loop
    have h0 : cr_group_at cr i = GROUP_AT grp i := by
      simpa using h 0 (Nat.succ_pos n)
    have hne : (cr_group_at cr i != GROUP_AT grp i) = false := by
      rw [h0]; simp
    rw [hne]
    simp only [Bool.false_eq_true, if_false]
    apply ih
    intro k hk
    have := h (k + 1) (by omega)
    rw [show i + 1 + k = i + (k + 1) by omega]
    exact this

theorem cred_group_set_length (cr : CRED_T)
    (hwf : cr.cr_ngroups ≤ cr.cr_groups.length) :
    (cred_group_set cr).length = cr.cr_ngroups := by
  unfold cred_group_set
  rw [List.length_take]
  omega

theorem cred_group_set_getD (cr : CRED_T) (k : Nat) (hk : k < cr.cr_ngroups) :
    (cred_group_set cr).getD k 0 = cr_group_at cr k := by
  unfold cred_group_set cr_group_at
  simp only [List.getD_eq_getElem?_getD]
  rw [List.getElem?_take_of_lt hk]

theorem gi_from_cred_eq (cr : CRED_T)
    (hwf : cr.cr_ngroups ≤ cr.cr_groups.length) :
    gi_from_cred cr = cred_group_set cr := by
  apply List.ext_getElem?
  intro k
  unfold gi_from_cred cred_group_set cr_group_at
  by_cases hk : k < cr.cr_ngroups
  · have hk' : k < cr.cr_groups.length := by omega
    rw [List.getElem?_take_of_lt hk]
    simp [hk, hk']
  · have h1 : ((List.range cr.cr_ngroups).map
        (fun i => cr.cr_groups.getD i 0))[k]? = none := by
      apply List.getElem?_eq_none
      simp only [List.length_map, List.length_range]
      omega
    have h2 : (cr.cr_groups.take cr.cr_ngroups)[k]? = none := by
      apply List.getElem?_eq_none
      rw [List.length_take]
      omega
    rw [h1, h2]

theorem cmp_cred2grp_same (cr : CRED_T)
    (hwf : cr.cr_ngroups ≤ cr.cr_groups.length) (hne : cr.cr_ngroups ≠ 0) :
    vnlayer_cmp_cred2grp cr (cred_group_set cr) = 0 := by
  unfold vnlayer_cmp_cred2grp
  rw [cred_group_set_length cr hwf]
  have h1 : (cr.cr_ngroups == 0) = false := by simpa using hne
  simp only [h1, bne_self_eq_false, Bool.or_self, Bool.false_eq_true, if_false]
  apply cmp_cred2grp_loop_eq_zero
  intro k hk
  rw [Nat.zero_add]
  unfold GROUP_AT
  exact (cred_group_set_getD cr k hk).symm

/-- The credential installed by a successful switch. -/
theorem save_success (old_kernel : Bool) (env : SaveOutcomes)
    (cur : task_struct) (cred : CRED_T)
    (hrv : (vnlayer_fsuid_save old_kernel env cur cred).rv = true) :
    vnlayer_fsuid_save old_kernel env cur cred =
      { rv := true,
        save_p := some (if old_kernel then
            fsuid_save_obj.save_struct cur.cred.fsuid cur.cred.fsgid
              cur.cred.group_info
          else fsuid_save_obj.creds cur.cred),
        cur := { cur with cred :=
          { cur.cred with group_info := groups_sort (gi_from_cred cred),
                          fsuid := MDKI_CR_GET_UID cred,
                          fsgid := MDKI_CR_GET_GID cred } } } := by
  unfold vnlayer_fsuid_save at hrv ⊢
  dsimp only at hrv ⊢
  generalize (MDKI_CR_GET_UID cred != MDKI_GET_CURRENT_FSUID cur ||
      MDKI_CR_GET_GID cred != MDKI_GET_CURRENT_FSGID cur ||
      vnlayer_cmp_cred2grp cred cur.cred.group_info != 0) = b at hrv ⊢
  obtain ⟨e1, e2, e3, e4⟩ := env
  cases b <;> cases old_kernel <;> cases e1 <;> cases e2 <;> cases e3 <;>
    cases e4 <;> first | rfl | (simp at hrv)

/-- The result of a switch that fails or is not attempted. -/
theorem save_failure (old_kernel : Bool) (env : SaveOutcomes)
    (cur : task_struct) (cred : CRED_T)
    (hrv : (vnlayer_fsuid_save old_kernel env cur cred).rv = false) :
    vnlayer_fsuid_save old_kernel env cur cred =
      { rv := false, save_p := none, cur := cur } := by
  unfold vnlayer_fsuid_save at hrv ⊢
  dsimp only at hrv ⊢
  generalize (MDKI_CR_GET_UID cred != MDKI_GET_CURRENT_FSUID cur ||
      MDKI_CR_GET_GID cred != MDKI_GET_CURRENT_FSGID cur ||
      vnlayer_cmp_cred2grp cred cur.cred.group_info != 0) = b at hrv ⊢
  obtain ⟨e1, e2, e3, e4⟩ := env
  cases b <;> cases old_kernel <;> cases e1 <;> cases e2 <;> cases e3 <;>
    cases e4 <;> first | rfl | (simp at hrv)

/-! ## Credential switcher: the claims -/

/-- C6 (as stated, refuted): the target `same_cred_nogroups` has the uid, the
gid and the (empty) group-set of the caller `user_task_nogroups`, yet
`vnlayer_fsuid_save` returns TRUE with a non-NULL token:
`vnlayer_cmp_cred2grp` reports a difference whenever `cr_ngroups` is 0. -/
theorem c6_counterexample :
    MDKI_CR_GET_UID same_cred_nogroups = MDKI_GET_CURRENT_FSUID user_task_nogroups ∧
    MDKI_CR_GET_GID same_cred_nogroups = MDKI_GET_CURRENT_FSGID user_task_nogroups ∧
    cred_group_set same_cred_nogroups = user_task_nogroups.cred.group_info ∧
    (vnlayer_fsuid_save false all_ok user_task_nogroups same_cred_nogroups).rv = true ∧
    (vnlayer_fsuid_save false all_ok user_task_nogroups same_cred_nogroups).save_p =
      some (fsuid_save_obj.creds user_task_nogroups.cred) := by
  decide

/-- C6 (amended): for every target identity with a non-empty group-set whose
uid, gid and group-set equal the caller's active fsuid, fsgid and group
list, `vnlayer_fsuid_save` returns FALSE with a NULL token and leaves
`current` as it was, on either kernel branch and whatever the outcomes of the
kernel primitives. -/
theorem c6_same_identity_unchanged (old_kernel : Bool) (env : SaveOutcomes)
    (cur : task_struct) (cred : CRED_T)
    (hwf : cred.cr_ngroups ≤ cred.cr_groups.length)
    (hne : cred.cr_ngroups ≠ 0)
    (huid : MDKI_CR_GET_UID cred = MDKI_GET_CURRENT_FSUID cur)
    (hgid : MDKI_CR_GET_GID cred = MDKI_GET_CURRENT_FSGID cur)
    (hgrp : cred_group_set cred = cur.cred.group_info) :
    vnlayer_fsuid_save old_kernel env cur cred =
      { rv := false, save_p := none, cur := cur } := by
  have hcmp : vnlayer_cmp_cred2grp cred cur.cred.group_info = 0 := by
    rw [← hgrp]
    exact cmp_cred2grp_same cred hwf hne
  unfold vnlayer_fsuid_save
  simp [huid, hgid, hcmp]

/-- Witness of C6 (amended): the caller with groups 1000 and 27 and the same
identity as target. -/
theorem c6_same_identity_unchanged_witness :
    vnlayer_fsuid_save false all_ok user_task same_cred =
      { rv := false, save_p := none, cur := user_task } :=
  c6_same_identity_unchanged false all_ok user_task same_cred
    (by decide) (by decide) (by decide) (by decide) (by decide)

/-- C7 (as stated, refuted): on the branch for kernels before 2.6.32, the
save of `root_cred` by `user_task` succeeds, and when `set_current_groups`
fails inside `vnlayer_fsuid_restore` (the failure is only logged) the group
list after the restore is the target's, not the caller's original one. -/
theorem c7_counterexample :
    (vnlayer_fsuid_save true all_ok user_task root_cred).rv = true ∧
    (vnlayer_fsuid_restore true false
        (vnlayer_fsuid_save true all_ok user_task root_cred).cur
        (vnlayer_fsuid_save true all_ok user_task root_cred).save_p).map
      (fun r => r.2.cred.group_info) = some [0, 4] ∧
    user_task.cred.group_info = [1000, 27] := by
  decide

/-- C7 (amended): when `vnlayer_fsuid_save` succeeds and
`vnlayer_fsuid_restore` is then called on the returned token, `current` is
equal, field for field, to its value before the save, on the branch for
kernels from 2.6.32 on, and on the older branch provided the
`set_current_groups` call inside the restore succeeds. -/
theorem c7_save_restore_roundtrip (old_kernel : Bool) (restore_ok : Bool)
    (env : SaveOutcomes) (cur : task_struct) (cred : CRED_T)
    (hrv : (vnlayer_fsuid_save old_kernel env cur cred).rv = true)
    (hok : old_kernel = false ∨ restore_ok = true) :
    ∃ tok,
      vnlayer_fsuid_restore old_kernel restore_ok
        (vnlayer_fsuid_save old_kernel env cur cred).cur
        (vnlayer_fsuid_save old_kernel env cur cred).save_p = some (tok, cur) := by
  rw [save_success old_kernel env cur cred hrv]
  obtain ⟨c, rc⟩ := cur
  obtain ⟨a1, a2, a3, a4, a5, a6, a7, a8, a9, a10, a11⟩ := c
  rcases hok with h | h
  · subst h
    exact ⟨_, rfl⟩
  · subst h
    cases old_kernel
    · exact ⟨_, rfl⟩
    · exact ⟨_, rfl⟩

/-- Witness of C7 (amended) on the branch for kernels from 2.6.32 on. -/
theorem c7_save_restore_roundtrip_witness :
    ∃ tok,
      vnlayer_fsuid_restore false true
        (vnlayer_fsuid_save false all_ok user_task root_cred).cur
        (vnlayer_fsuid_save false all_ok user_task root_cred).save_p =
        some (tok, user_task) :=
  c7_save_restore_roundtrip false true all_ok user_task root_cred
    (by decide) (Or.inl rfl)

/-- C8 (as stated, refuted): `user_task` switching to `unsorted_cred`, whose
group-set is 4, 0 in this order, ends with the group list 0, 4 on either
kernel branch: `set_groups` / `set_current_groups` sort the list they
install, so the order of the target's group-set is not kept. -/
theorem c8_counterexample :
    cred_group_set unsorted_cred = [4, 0] ∧
    (vnlayer_fsuid_save false all_ok user_task unsorted_cred).rv = true ∧
    (vnlayer_fsuid_save false all_ok user_task unsorted_cred).cur.cred.group_info =
      [0, 4] ∧
    (vnlayer_fsuid_save true all_ok user_task unsorted_cred).rv = true ∧
    (vnlayer_fsuid_save true all_ok user_task unsorted_cred).cur.cred.group_info =
      [0, 4] := by
  decide

/-- C8 (amended): when `vnlayer_fsuid_save` returns TRUE, the active
credential afterwards has the target's uid as fsuid, the target's gid as
fsgid and, as group list, the target's group-set sorted in ascending order:
the same ids with the same multiplicities, hence the same length, and
element for element the target's group-set exactly when that is already in
ascending order; every other field of the credential (and the objective
credential) is as before, and the token holds the credential that was
active before the call: the displaced `struct cred` itself on kernels from
2.6.32 on, and the previous fsuid, fsgid and group list in the save record
on older kernels. -/
theorem c8_switch_installs_target (old_kernel : Bool) (env : SaveOutcomes)
    (cur : task_struct) (cred : CRED_T)
    (hwf : cred.cr_ngroups ≤ cred.cr_groups.length)
    (hrv : (vnlayer_fsuid_save old_kernel env cur cred).rv = true) :
    (vnlayer_fsuid_save old_kernel env cur cred).cur.cred.fsuid = MDKI_CR_GET_UID cred ∧
    (vnlayer_fsuid_save old_kernel env cur cred).cur.cred.fsgid = MDKI_CR_GET_GID cred ∧
    (vnlayer_fsuid_save old_kernel env cur cred).cur.cred.group_info =
      groups_sort (cred_group_set cred) ∧
    List.Perm (vnlayer_fsuid_save old_kernel env cur cred).cur.cred.group_info
      (cred_group_set cred) ∧
    List.Sorted (fun a b => a ≤ b)
      (vnlayer_fsuid_save old_kernel env cur cred).cur.cred.group_info ∧
    (vnlayer_fsuid_save old_kernel env cur cred).cur.cred.group_info.length =
      (cred_group_set cred).length ∧
    ((vnlayer_fsuid_save old_kernel env cur cred).cur.cred.group_info =
        cred_group_set cred ↔
      List.Sorted (fun a b => a ≤ b) (cred_group_set cred)) ∧
    (vnlayer_fsuid_save old_kernel env cur cred).cur.cred.uid = cur.cred.uid ∧
    (vnlayer_fsuid_save old_kernel env cur cred).cur.cred.gid = cur.cred.gid ∧
    (vnlayer_fsuid_save old_kernel env cur cred).cur.cred.suid = cur.cred.suid ∧
    (vnlayer_fsuid_save old_kernel env cur cred).cur.cred.sgid = cur.cred.sgid ∧
    (vnlayer_fsuid_save old_kernel env cur cred).cur.cred.euid = cur.cred.euid ∧
    (vnlayer_fsuid_save old_kernel env cur cred).cur.cred.egid = cur.cred.egid ∧
    (vnlayer_fsuid_save old_kernel env cur cred).cur.cred.securebits = cur.cred.securebits ∧
    (vnlayer_fsuid_save old_kernel env cur cred).cur.cred.cap_effective =
      cur.cred.cap_effective ∧
    (vnlayer_fsuid_save old_kernel env cur cred).cur.real_cred = cur.real_cred ∧
    (old_kernel = false →
      (vnlayer_fsuid_save old_kernel env cur cred).save_p =
        some (fsuid_save_obj.creds cur.cred)) ∧
    (old_kernel = true →
      (vnlayer_fsuid_save old_kernel env cur cred).save_p =
        some (fsuid_save_obj.save_struct cur.cred.fsuid cur.cred.fsgid
          cur.cred.group_info)) := by
  rw [save_success old_kernel env cur cred hrv]
  have hgi : groups_sort (gi_from_cred cred) = groups_sort (cred_group_set cred) := by
    rw [gi_from_cred_eq cred hwf]
  refine ⟨rfl, rfl, hgi, ?_, ?_, ?_, ?_, rfl, rfl, rfl, rfl, rfl, rfl, rfl, rfl, rfl,
    ?_, ?_⟩
  · show List.Perm (groups_sort (gi_from_cred cred)) (cred_group_set cred)
    rw [hgi]
    exact List.perm_insertionSort _ _
  · show List.Sorted _ (groups_sort (gi_from_cred cred))
    exact List.sorted_insertionSort _ _
  · show (groups_sort (gi_from_cred cred)).length = _
    rw [hgi]
    exact List.length_insertionSort _ _
  · show groups_sort (gi_from_cred cred) = cred_group_set cred ↔ _
    rw [hgi]
    constructor
    · intro h
      rw [← h]
      exact List.sorted_insertionSort _ _
    · intro h
      exact List.Sorted.insertionSort_eq h
  · intro h; subst h; rfl
  · intro h; subst h; rfl

/-- Witness of C8 (amended): `user_task` switching to `unsorted_cred` on the
branch for kernels from 2.6.32 on. -/
theorem c8_switch_installs_target_witness :
    (vnlayer_fsuid_save false all_ok user_task unsorted_cred).cur.cred.fsuid =
      MDKI_CR_GET_UID unsorted_cred ∧
    (vnlayer_fsuid_save false all_ok user_task unsorted_cred).cur.cred.fsgid =
      MDKI_CR_GET_GID unsorted_cred ∧
    (vnlayer_fsuid_save false all_ok user_task unsorted_cred).cur.cred.group_info =
      groups_sort (cred_group_set unsorted_cred) ∧
    List.Perm (vnlayer_fsuid_save false all_ok user_task unsorted_cred).cur.cred.group_info
      (cred_group_set unsorted_cred) ∧
    List.Sorted (fun a b => a ≤ b)
      (vnlayer_fsuid_save false all_ok user_task unsorted_cred).cur.cred.group_info ∧
    (vnlayer_fsuid_save false all_ok user_task unsorted_cred).cur.cred.group_info.length =
      (cred_group_set unsorted_cred).length ∧
    ((vnlayer_fsuid_save false all_ok user_task unsorted_cred).cur.cred.group_info =
        cred_group_set unsorted_cred ↔
      List.Sorted (fun a b => a ≤ b) (cred_group_set unsorted_cred)) ∧
    (vnlayer_fsuid_save false all_ok user_task unsorted_cred).cur.cred.uid =
      user_task.cred.uid ∧
    (vnlayer_fsuid_save false all_ok user_task unsorted_cred).cur.cred.gid =
      user_task.cred.gid ∧
    (vnlayer_fsuid_save false all_ok user_task unsorted_cred).cur.cred.suid =
      user_task.cred.suid ∧
    (vnlayer_fsuid_save false all_ok user_task unsorted_cred).cur.cred.sgid =
      user_task.cred.sgid ∧
    (vnlayer_fsuid_save false all_ok user_task unsorted_cred).cur.cred.euid =
      user_task.cred.euid ∧
    (vnlayer_fsuid_save false all_ok user_task unsorted_cred).cur.cred.egid =
      user_task.cred.egid ∧
    (vnlayer_fsuid_save false all_ok user_task unsorted_cred).cur.cred.securebits =
      user_task.cred.securebits ∧
    (vnlayer_fsuid_save false all_ok user_task unsorted_cred).cur.cred.cap_effective =
      user_task.cred.cap_effective ∧
    (vnlayer_fsuid_save false all_ok user_task unsorted_cred).cur.real_cred =
      user_task.real_cred ∧
    (false = false →
      (vnlayer_fsuid_save false all_ok user_task unsorted_cred).save_p =
        some (fsuid_save_obj.creds user_task.cred)) ∧
    (false = true →
      (vnlayer_fsuid_save false all_ok user_task unsorted_cred).save_p =
        some (fsuid_save_obj.save_struct user_task.cred.fsuid
          user_task.cred.fsgid user_task.cred.group_info)) :=
  c8_switch_installs_target false all_ok user_task unsorted_cred
    (by decide) (by decide)

/-- C9: if `groups_alloc` fails, or the save record (old kernels) or
`prepare_creds` (new kernels) cannot be allocated, or `set_groups` /
`set_current_groups` fails, `vnlayer_fsuid_save` returns FALSE with a NULL
token and `current` is exactly what it was before the call. -/
theorem c9_failure_atomicity (old_kernel : Bool) (env : SaveOutcomes)
    (cur : task_struct) (cred : CRED_T)
    (hfail : env.groups_alloc_ok = false ∨
      (old_kernel = true ∧ env.kmem_alloc_ok = false) ∨
      (old_kernel = false ∧ env.prepare_creds_ok = false) ∨
      env.set_groups_ok = false) :
    vnlayer_fsuid_save old_kernel env cur cred =
      { rv := false, save_p := none, cur := cur } := by
  apply save_failure
  unfold vnlayer_fsuid_save
  dsimp only
  generalize (MDKI_CR_GET_UID cred != MDKI_GET_CURRENT_FSUID cur ||
      MDKI_CR_GET_GID cred != MDKI_GET_CURRENT_FSGID cur ||
      vnlayer_cmp_cred2grp cred cur.cred.group_info != 0) = b
  obtain ⟨e1, e2, e3, e4⟩ := env
  cases b <;> cases old_kernel <;> cases e1 <;> cases e2 <;> cases e3 <;>
    cases e4 <;> first | rfl | (simp at hfail)

/-- Witness of C9: `user_task` asks for `root_cred` and `groups_alloc`
fails. -/
theorem c9_failure_atomicity_witness :
    vnlayer_fsuid_save false no_groups_alloc user_task root_cred =
      { rv := false, save_p := none, cur := user_task } :=
  c9_failure_atomicity false no_groups_alloc user_task root_cred
    (Or.inl (by decide))

/-! ## Cleartext vnode manager: the root singleton -/

/-- The fast path: with a backing store registered and the root vnode cached
at `a`, a create for the registered (entry, mount) pair returns `a` and only
holds it. -/
theorem new_clrvnode_fast_path (S : Nat) (ni : Option (Nat × clr_vnode))
    (w : World) (a : Nat)
    (hvfs : w.vnlayer_clrvnode_vfsp ≠ none)
    (hroot : w.vnlayer_sysroot_clrvp = some a) :
    vnlayer_linux_new_clrvnode S ni w w.vnlayer_sysroot_dentry
      w.vnlayer_sysroot_mnt = some (some a, VN_HOLD w a) := by
  unfold vnlayer_linux_new_clrvnode
  rw [if_neg hvfs]
  have hc : w.vnlayer_sysroot_dentry = w.vnlayer_sysroot_dentry ∧
      w.vnlayer_sysroot_mnt = w.vnlayer_sysroot_mnt ∧
      w.vnlayer_sysroot_clrvp ≠ none := by
    refine ⟨rfl, rfl, ?_⟩
    rw [hroot]
    exact Option.some_ne_none a
  rw [if_pos hc, hroot]

/-- C10: with a backing store registered and the root vnode cached at
address `a`, a call of `vnlayer_linux_new_clrvnode` with the registered
system-root (entry, mount) pair returns `a` with its reference count one
higher, and a second call returns `a` again with the count two higher than
at the start; after either call every other field of the cached vnode is as
before, no object exists at any address where none existed (no inode was
allocated), the reference counts of all entries and mounts and the live
cleartext-vnode counter are unchanged, and so are the registrations.  This
holds whatever `new_inode` would have returned. -/
theorem c10_root_singleton (S : Nat) (ni1 ni2 : Option (Nat × clr_vnode))
    (w : World) (dent mnt : Option Nat) (a : Nat) (v : clr_vnode)
    (hvfs : w.vnlayer_clrvnode_vfsp ≠ none)
    (hroot : w.vnlayer_sysroot_clrvp = some a)
    (hobj : w.vnodes a = some v)
    (hd : dent = w.vnlayer_sysroot_dentry)
    (hm : mnt = w.vnlayer_sysroot_mnt) :
    ∃ w1 w2,
      vnlayer_linux_new_clrvnode S ni1 w dent mnt = some (some a, w1) ∧
      vnlayer_linux_new_clrvnode S ni2 w1 dent mnt = some (some a, w2) ∧
      w1.vnodes a = some { v with i_count := v.i_count + 1 } ∧
      w2.vnodes a = some { v with i_count := v.i_count + 2 } ∧
      (∀ b, b ≠ a → w1.vnodes b = w.vnodes b ∧ w2.vnodes b = w.vnodes b) ∧
      (w1.d_count = w.d_count ∧ w2.d_count = w.d_count) ∧
      (w1.mnt_count = w.mnt_count ∧ w2.mnt_count = w.mnt_count) ∧
      (w1.d_inode = w.d_inode ∧ w2.d_inode = w.d_inode) ∧
      (w1.vnlayer_clrvnode_count = w.vnlayer_clrvnode_count ∧
        w2.vnlayer_clrvnode_count = w.vnlayer_clrvnode_count) ∧
      (w1.vnlayer_sysroot_clrvp = some a ∧ w2.vnlayer_sysroot_clrvp = some a) ∧
      (w1.vnlayer_clrvnode_vfsp = w.vnlayer_clrvnode_vfsp ∧
        w2.vnlayer_clrvnode_vfsp = w.vnlayer_clrvnode_vfsp) ∧
      (w1.vnlayer_sysroot_dentry = dent ∧ w2.vnlayer_sysroot_dentry = dent) ∧
      (w1.vnlayer_sysroot_mnt = mnt ∧ w2.vnlayer_sysroot_mnt = mnt) := by
  subst hd
  subst hm
  refine ⟨VN_HOLD w a, VN_HOLD (VN_HOLD w a) a,
    new_clrvnode_fast_path S ni1 w a hvfs hroot, ?_, ?_, ?_, ?_,
    ⟨rfl, rfl⟩, ⟨rfl, rfl⟩, ⟨rfl, rfl⟩, ⟨rfl, rfl⟩, ⟨hroot, hroot⟩, ⟨rfl, rfl⟩,
    ⟨rfl, rfl⟩, ⟨rfl, rfl⟩⟩
  · exact new_clrvnode_fast_path S ni2 (VN_HOLD w a) a hvfs hroot
  · simp [VN_HOLD, hobj]
  · simp [VN_HOLD, hobj]
  · intro b hb
    simp [VN_HOLD, hb]

/-- Witness of C10 on `root_world`, whose root vnode is cached at address 7
for the entry at address 1 on the mount at address 2; `new_inode` would fail
on the first call and succeed on the second. -/
theorem c10_root_singleton_witness :
    ∃ w1 w2,
      vnlayer_linux_new_clrvnode 0x600d none root_world (some 1) (some 2) =
        some (some 7, w1) ∧
      vnlayer_linux_new_clrvnode 0x600d (some (9, root_vnode)) w1 (some 1) (some 2) =
        some (some 7, w2) ∧
      w1.vnodes 7 = some { root_vnode with i_count := root_vnode.i_count + 1 } ∧
      w2.vnodes 7 = some { root_vnode with i_count := root_vnode.i_count + 2 } ∧
      (∀ b, b ≠ 7 → w1.vnodes b = root_world.vnodes b ∧
        w2.vnodes b = root_world.vnodes b) ∧
      (w1.d_count = root_world.d_count ∧ w2.d_count = root_world.d_count) ∧
      (w1.mnt_count = root_world.mnt_count ∧ w2.mnt_count = root_world.mnt_count) ∧
      (w1.d_inode = root_world.d_inode ∧ w2.d_inode = root_world.d_inode) ∧
      (w1.vnlayer_clrvnode_count = root_world.vnlayer_clrvnode_count ∧
        w2.vnlayer_clrvnode_count = root_world.vnlayer_clrvnode_count) ∧
      (w1.vnlayer_sysroot_clrvp = some 7 ∧ w2.vnlayer_sysroot_clrvp = some 7) ∧
      (w1.vnlayer_clrvnode_vfsp = root_world.vnlayer_clrvnode_vfsp ∧
        w2.vnlayer_clrvnode_vfsp = root_world.vnlayer_clrvnode_vfsp) ∧
      (w1.vnlayer_sysroot_dentry = some 1 ∧ w2.vnlayer_sysroot_dentry = some 1) ∧
      (w1.vnlayer_sysroot_mnt = some 2 ∧ w2.vnlayer_sysroot_mnt = some 2) :=
  c10_root_singleton 0x600d none (some (9, root_vnode)) root_world (some 1) (some 2)
    7 root_vnode (by decide) rfl rfl rfl rfl

/-! ## Cleartext vnode manager: create, failure and slow path -/

/-- C11: with no backing store registered the call returns NULL and leaves
the world untouched for every (entry, mount) and every outcome of
`new_inode` (also for the registered root pair with a cached instance); and
whenever the call returns NULL the world after the call is the world before
it: no object was created, no reference was taken on an entry or a mount,
and the live cleartext-vnode counter is unchanged. -/
theorem c11_create_failure_atomicity (S : Nat) (ni : Option (Nat × clr_vnode))
    (w : World) (dent mnt : Option Nat) :
    (w.vnlayer_clrvnode_vfsp = none →
      vnlayer_linux_new_clrvnode S ni w dent mnt = some (none, w)) ∧
    (ni = none → w.vnlayer_clrvnode_vfsp ≠ none →
      ¬ (w.vnlayer_sysroot_dentry = dent ∧ w.vnlayer_sysroot_mnt = mnt ∧
          w.vnlayer_sysroot_clrvp ≠ none) →
      vnlayer_linux_new_clrvnode S ni w dent mnt = some (none, w)) ∧
    (∀ w2, vnlayer_linux_new_clrvnode S ni w dent mnt = some (none, w2) →
      w2 = w) := by
  refine ⟨?_, ?_, ?_⟩
  · intro h
    unfold vnlayer_linux_new_clrvnode
    rw [if_pos h]
  · intro hni hvfs hfast
    unfold vnlayer_linux_new_clrvnode
    rw [if_neg hvfs, if_neg hfast, hni]
  · intro w2 h
    unfold vnlayer_linux_new_clrvnode at h
    by_cases hvfs : w.vnlayer_clrvnode_vfsp = none
    · rw [if_pos hvfs] at h
      simp only [Option.some.injEq, Prod.mk.injEq, true_and] at h
      exact h.symm
    · rw [if_neg hvfs] at h
      by_cases hfast : w.vnlayer_sysroot_dentry = dent ∧ w.vnlayer_sysroot_mnt = mnt ∧
          w.vnlayer_sysroot_clrvp ≠ none
      · rw [if_pos hfast] at h
        cases hc : w.vnlayer_sysroot_clrvp with
        | none => exact absurd hc hfast.2.2
        | some a =>
          rw [hc] at h
          simp at h
      · rw [if_neg hfast] at h
        cases ni with
        | none =>
          simp only [Option.some.injEq, Prod.mk.injEq, true_and] at h
          exact h.symm
        | some pr =>
          obtain ⟨clri, raw⟩ := pr
          cases dent with
          | none => simp at h
          | some da => simp at h

/-- Witness of C11: on `unregistered_world` a create for the registered
root pair returns NULL and changes nothing, although `new_inode` would
succeed. -/
theorem c11_create_failure_atomicity_witness :
    vnlayer_linux_new_clrvnode 0x600d (some (9, raw_vnode)) unregistered_world
      (some 1) (some 2) = some (none, unregistered_world) :=
  (c11_create_failure_atomicity 0x600d (some (9, raw_vnode)) unregistered_world
    (some 1) (some 2)).1 rfl

theorem VNODE_DGET_d_count (w : World) (p : Option Nat) (x : Nat) :
    (VNODE_DGET w p).d_count x = w.d_count x + (if p = some x then 1 else 0) := by
  cases p with
  | none => simp [VNODE_DGET]
  | some a =>
    by_cases h : x = a
    · subst h; simp [VNODE_DGET]
    · have h2 : ¬ a = x := fun e => h e.symm
      simp [VNODE_DGET, h, h2]

theorem VNODE_DPUT_d_count (w : World) (p : Option Nat) (x : Nat) :
    (VNODE_DPUT w p).d_count x = w.d_count x - (if p = some x then 1 else 0) := by
  cases p with
  | none => simp [VNODE_DPUT]
  | some a =>
    by_cases h : x = a
    · subst h; simp [VNODE_DPUT]
    · have h2 : ¬ a = x := fun e => h e.symm
      simp [VNODE_DPUT, h, h2]

theorem MDKI_MNTGET_mnt_count (w : World) (p : Option Nat) (x : Nat) :
    (MDKI_MNTGET w p).mnt_count x = w.mnt_count x + (if p = some x then 1 else 0) := by
  cases p with
  | none => simp [MDKI_MNTGET]
  | some a =>
    by_cases h : x = a
    · subst h; simp [MDKI_MNTGET]
    · have h2 : ¬ a = x := fun e => h e.symm
      simp [MDKI_MNTGET, h, h2]

theorem MDKI_MNTPUT_mnt_count (w : World) (p : Option Nat) (x : Nat) :
    (MDKI_MNTPUT w p).mnt_count x = w.mnt_count x - (if p = some x then 1 else 0) := by
  cases p with
  | none => simp [MDKI_MNTPUT]
  | some a =>
    by_cases h : x = a
    · subst h; simp [MDKI_MNTPUT]
    · have h2 : ¬ a = x := fun e => h e.symm
      simp [MDKI_MNTPUT, h, h2]

theorem VNODE_DGET_frame (w : World) (p : Option Nat) :
    (VNODE_DGET w p).mnt_count = w.mnt_count ∧
    (VNODE_DGET w p).vnodes = w.vnodes ∧
    (VNODE_DGET w p).d_inode = w.d_inode ∧
    (VNODE_DGET w p).vnlayer_clrvnode_count = w.vnlayer_clrvnode_count ∧
    (VNODE_DGET w p).vnlayer_sysroot_clrvp = w.vnlayer_sysroot_clrvp ∧
    (VNODE_DGET w p).vnlayer_clrvnode_vfsp = w.vnlayer_clrvnode_vfsp ∧
    (VNODE_DGET w p).vnlayer_sysroot_dentry = w.vnlayer_sysroot_dentry ∧
    (VNODE_DGET w p).vnlayer_sysroot_mnt = w.vnlayer_sysroot_mnt := by
  cases p <;> exact ⟨rfl, rfl, rfl, rfl, rfl, rfl, rfl, rfl⟩

theorem VNODE_DPUT_frame (w : World) (p : Option Nat) :
    (VNODE_DPUT w p).mnt_count = w.mnt_count ∧
    (VNODE_DPUT w p).vnodes = w.vnodes ∧
    (VNODE_DPUT w p).d_inode = w.d_inode ∧
    (VNODE_DPUT w p).vnlayer_clrvnode_count = w.vnlayer_clrvnode_count ∧
    (VNODE_DPUT w p).vnlayer_sysroot_clrvp = w.vnlayer_sysroot_clrvp ∧
    (VNODE_DPUT w p).vnlayer_clrvnode_vfsp = w.vnlayer_clrvnode_vfsp ∧
    (VNODE_DPUT w p).vnlayer_sysroot_dentry = w.vnlayer_sysroot_dentry ∧
    (VNODE_DPUT w p).vnlayer_sysroot_mnt = w.vnlayer_sysroot_mnt := by
  cases p <;> exact ⟨rfl, rfl, rfl, rfl, rfl, rfl, rfl, rfl⟩

theorem MDKI_MNTGET_frame (w : World) (p : Option Nat) :
    (MDKI_MNTGET w p).d_count = w.d_count ∧
    (MDKI_MNTGET w p).vnodes = w.vnodes ∧
    (MDKI_MNTGET w p).d_inode = w.d_inode ∧
    (MDKI_MNTGET w p).vnlayer_clrvnode_count = w.vnlayer_clrvnode_count ∧
    (MDKI_MNTGET w p).vnlayer_sysroot_clrvp = w.vnlayer_sysroot_clrvp ∧
    (MDKI_MNTGET w p).vnlayer_clrvnode_vfsp = w.vnlayer_clrvnode_vfsp ∧
    (MDKI_MNTGET w p).vnlayer_sysroot_dentry = w.vnlayer_sysroot_dentry ∧
    (MDKI_MNTGET w p).vnlayer_sysroot_mnt = w.vnlayer_sysroot_mnt := by
  cases p <;> exact ⟨rfl, rfl, rfl, rfl, rfl, rfl, rfl, rfl⟩

theorem MDKI_MNTPUT_frame (w : World) (p : Option Nat) :
    (MDKI_MNTPUT w p).d_count = w.d_count ∧
    (MDKI_MNTPUT w p).vnodes = w.vnodes ∧
    (MDKI_MNTPUT w p).d_inode = w.d_inode ∧
    (MDKI_MNTPUT w p).vnlayer_clrvnode_count = w.vnlayer_clrvnode_count ∧
    (MDKI_MNTPUT w p).vnlayer_sysroot_clrvp = w.vnlayer_sysroot_clrvp ∧
    (MDKI_MNTPUT w p).vnlayer_clrvnode_vfsp = w.vnlayer_clrvnode_vfsp ∧
    (MDKI_MNTPUT w p).vnlayer_sysroot_dentry = w.vnlayer_sysroot_dentry ∧
    (MDKI_MNTPUT w p).vnlayer_sysroot_mnt = w.vnlayer_sysroot_mnt := by
  cases p <;> exact ⟨rfl, rfl, rfl, rfl, rfl, rfl, rfl, rfl⟩

/-- The vnode as `vnlayer_linux_new_clrvnode` fills it in on the slow path. -/
theorem new_clrvnode_slow_path (S : Nat) (w : World) (da : Nat)
    (mnt : Option Nat) (clri : Nat) (raw : clr_vnode)
    (hvfs : w.vnlayer_clrvnode_vfsp ≠ none)
    (hslow : ¬ (w.vnlayer_sysroot_dentry = some da ∧ w.vnlayer_sysroot_mnt = mnt ∧
      w.vnlayer_sysroot_clrvp ≠ none)) :
    ∃ w2 c,
      vnlayer_linux_new_clrvnode S (some (clri, raw)) w (some da) mnt =
        some (some clri, w2) ∧
      w2.vnodes clri = some c ∧
      (∀ b, b ≠ clri → w2.vnodes b = w.vnodes b) ∧
      c.v_dent = some da ∧ c.v_vfsmnt = mnt ∧ c.v_sanity = S ∧
      (∀ real, w.d_inode da = some real →
        c.v_type = vnlayer_mode_to_vtype real.i_mode) ∧
      (w.d_inode da = none →
        c.v_type = VTYPE_T.VNON ∧ c.i_mode = 0 ∧ c.i_ino = 0) ∧
      w2.d_count = (VNODE_DGET w (some da)).d_count ∧
      w2.mnt_count = (MDKI_MNTGET w mnt).mnt_count ∧
      w2.vnlayer_clrvnode_count = w.vnlayer_clrvnode_count + 1 := by
  unfold vnlayer_linux_new_clrvnode
  rw [if_neg hvfs, if_neg hslow]
  dsimp only
  refine ⟨_, ?c, rfl, ?h⟩
  case h =>
    refine ⟨?_, ?_, ?_, ?_, ?_, ?_, ?_, ?_, ?_, ?_⟩
    · dsimp only
      rw [if_pos rfl]
      exact rfl
    · intro b hb
      have h1 := (MDKI_MNTGET_frame (VNODE_DGET
        { w with vnlayer_clrvnode_count := w.vnlayer_clrvnode_count + 1 } (some da)) mnt).2.1
      dsimp only
      rw [if_neg hb, h1]
      rfl
    · rfl
    · rfl
    · rfl
    · intro real hreal
      simp only [hreal]
    · intro hnone
      simp only [hnone]
      trivial
    · dsimp only
      rw [(MDKI_MNTGET_frame _ mnt).1]
      rfl
    · cases mnt <;> rfl
    · dsimp only
      rw [(MDKI_MNTGET_frame _ mnt).2.2.2.1]
      rfl

/-- C12: on the slow path (a backing store is registered, the call is not
served from the root cache, `new_inode` succeeds, the entry is not NULL) the
call returns the new vnode; it holds exactly the given entry and mount, the
reference count of the entry and (when the mount is not NULL) of the mount
is one higher than before and no other count changes; its sanity tag is
`VNODE_SANITY`; its type is `vnlayer_mode_to_vtype` of the real object's
mode when the entry has a real object, and `VNON` with mode 0 and inode
number 0 when the entry is negative; the live cleartext-vnode counter is one
higher. -/
theorem c12_slow_path (S : Nat) (w : World) (da : Nat) (mnt : Option Nat)
    (clri : Nat) (raw : clr_vnode)
    (hvfs : w.vnlayer_clrvnode_vfsp ≠ none)
    (hslow : ¬ (w.vnlayer_sysroot_dentry = some da ∧ w.vnlayer_sysroot_mnt = mnt ∧
      w.vnlayer_sysroot_clrvp ≠ none)) :
    ∃ w2 c,
      vnlayer_linux_new_clrvnode S (some (clri, raw)) w (some da) mnt =
        some (some clri, w2) ∧
      w2.vnodes clri = some c ∧
      c.v_dent = some da ∧ c.v_vfsmnt = mnt ∧
      w2.d_count da = w.d_count da + 1 ∧
      (∀ x, x ≠ da → w2.d_count x = w.d_count x) ∧
      (∀ ma, mnt = some ma → w2.mnt_count ma = w.mnt_count ma + 1) ∧
      (∀ x, mnt ≠ some x → w2.mnt_count x = w.mnt_count x) ∧
      c.v_sanity = S ∧
      (∀ real, w.d_inode da = some real →
        c.v_type = vnlayer_mode_to_vtype real.i_mode) ∧
      (w.d_inode da = none →
        c.v_type = VTYPE_T.VNON ∧ c.i_mode = 0 ∧ c.i_ino = 0) ∧
      w2.vnlayer_clrvnode_count = w.vnlayer_clrvnode_count + 1 := by
  obtain ⟨w2, c, hres, hc, _, hdent, hmnt, hsan, hreal, hneg, hdc, hmc, hcnt⟩ :=
    new_clrvnode_slow_path S w da mnt clri raw hvfs hslow
  refine ⟨w2, c, hres, hc, hdent, hmnt, ?_, ?_, ?_, ?_, hsan, hreal, hneg, hcnt⟩
  · rw [hdc, VNODE_DGET_d_count]
    simp
  · intro x hx
    have hx2 : ¬ da = x := fun e => hx e.symm
    rw [hdc, VNODE_DGET_d_count]
    simp [hx2]
  · intro ma hma
    rw [hmc, MDKI_MNTGET_mnt_count, hma]
    simp
  · intro x hx
    rw [hmc, MDKI_MNTGET_mnt_count]
    simp [hx]

/-- Witness of C12: on `root_world` a create for the root entry (address 1)
on another mount (address 5) takes the slow path. -/
theorem c12_slow_path_witness :
    ∃ w2 c,
      vnlayer_linux_new_clrvnode 0x600d (some (9, raw_vnode)) root_world (some 1)
        (some 5) = some (some 9, w2) ∧
      w2.vnodes 9 = some c ∧
      c.v_dent = some 1 ∧ c.v_vfsmnt = some 5 ∧
      w2.d_count 1 = root_world.d_count 1 + 1 ∧
      (∀ x, x ≠ 1 → w2.d_count x = root_world.d_count x) ∧
      (∀ ma, some 5 = some ma → w2.mnt_count ma = root_world.mnt_count ma + 1) ∧
      (∀ x, some 5 ≠ some x → w2.mnt_count x = root_world.mnt_count x) ∧
      c.v_sanity = 0x600d ∧
      (∀ real, root_world.d_inode 1 = some real →
        c.v_type = vnlayer_mode_to_vtype real.i_mode) ∧
      (root_world.d_inode 1 = none →
        c.v_type = VTYPE_T.VNON ∧ c.i_mode = 0 ∧ c.i_ino = 0) ∧
      w2.vnlayer_clrvnode_count = root_world.vnlayer_clrvnode_count + 1 :=
  c12_slow_path 0x600d root_world 1 (some 5) 9 raw_vnode (by decide) (by decide)

/-! ## Cleartext vnode manager: destroy -/

/-- The effect of a destroy on a vnode whose sanity tag is valid. -/
theorem free_clrvnode_valid (S : Nat) (w : World) (cvp : Nat) (v : clr_vnode)
    (hobj : w.vnodes cvp = some v) (hsan : v.v_sanity = S) :
    ∃ w2,
      vnlayer_linux_free_clrvnode S w cvp = free_outcome.completed w2 ∧
      (∀ x, w2.d_count x = w.d_count x - (if v.v_dent = some x then 1 else 0)) ∧
      (∀ x, w2.mnt_count x = w.mnt_count x - (if v.v_vfsmnt = some x then 1 else 0)) ∧
      w2.vnodes cvp = some { v with v_dent := none, v_vfsmnt := none } ∧
      (∀ b, b ≠ cvp → w2.vnodes b = w.vnodes b) ∧
      w2.d_inode = w.d_inode ∧
      w2.vnlayer_clrvnode_count = w.vnlayer_clrvnode_count - 1 := by
  unfold vnlayer_linux_free_clrvnode
  dsimp only
  rw [hobj]
  dsimp only
  have hs : ¬ v.v_sanity ≠ S := fun h => h hsan
  rw [if_neg hs]
  refine ⟨_, rfl, ?_, ?_, ?_, ?_, ?_, ?_⟩
  · intro x
    dsimp only
    cases hm : v.v_vfsmnt with
    | none =>
      simp only [ne_eq, not_true_eq_false, if_false]
      rw [VNODE_DPUT_d_count]
    | some ma =>
      simp only [ne_eq, reduceCtorEq, not_false_eq_true, if_true]
      rw [(MDKI_MNTPUT_frame _ _).1, VNODE_DPUT_d_count]
  · intro x
    dsimp only
    cases hm : v.v_vfsmnt with
    | none =>
      simp only [ne_eq, not_true_eq_false, if_false, reduceCtorEq, Nat.sub_zero]
      rw [(VNODE_DPUT_frame _ _).1]
    | some ma =>
      simp only [ne_eq, reduceCtorEq, not_false_eq_true, if_true]
      rw [MDKI_MNTPUT_mnt_count, (VNODE_DPUT_frame _ _).1]
  · dsimp only
    rw [if_pos rfl]
  · intro b hb
    dsimp only
    rw [if_neg hb]
    cases hm : v.v_vfsmnt with
    | none =>
      simp only [ne_eq, not_true_eq_false, if_false]
      rw [(VNODE_DPUT_frame _ _).2.1]
    | some ma =>
      simp only [ne_eq, reduceCtorEq, not_false_eq_true, if_true]
      rw [(MDKI_MNTPUT_frame _ _).2.1, (VNODE_DPUT_frame _ _).2.1]
  · dsimp only
    cases hm : v.v_vfsmnt with
    | none =>
      simp only [ne_eq, not_true_eq_false, if_false]
      rw [(VNODE_DPUT_frame _ _).2.2.1]
    | some ma =>
      simp only [ne_eq, reduceCtorEq, not_false_eq_true, if_true]
      rw [(MDKI_MNTPUT_frame _ _).2.2.1, (VNODE_DPUT_frame _ _).2.2.1]
  · dsimp only
    cases hm : v.v_vfsmnt with
    | none =>
      simp only [ne_eq, not_true_eq_false, if_false]
      rw [(VNODE_DPUT_frame _ _).2.2.2.1]
    | some ma =>
      simp only [ne_eq, reduceCtorEq, not_false_eq_true, if_true]
      rw [(MDKI_MNTPUT_frame _ _).2.2.2.1, (VNODE_DPUT_frame _ _).2.2.2.1]

/-- C13: a destroy of a vnode with a valid sanity tag runs to its end,
releases one reference on the held entry and one on the held mount (none on
a NULL field) and on nothing else, clears both held fields, and decrements
the live cleartext-vnode counter by one; and a slow-path create followed by
one destroy of the returned vnode leaves the reference counts of all entries
and mounts and the live counter equal to their values before the create. -/
theorem c13_destroy_releases_once (S : Nat) :
    (∀ (w : World) (cvp : Nat) (v : clr_vnode),
      w.vnodes cvp = some v → v.v_sanity = S →
      ∃ w2,
        vnlayer_linux_free_clrvnode S w cvp = free_outcome.completed w2 ∧
        (∀ x, w2.d_count x = w.d_count x - (if v.v_dent = some x then 1 else 0)) ∧
        (∀ x, w2.mnt_count x =
          w.mnt_count x - (if v.v_vfsmnt = some x then 1 else 0)) ∧
        w2.vnodes cvp = some { v with v_dent := none, v_vfsmnt := none } ∧
        w2.vnlayer_clrvnode_count = w.vnlayer_clrvnode_count - 1) ∧
    (∀ (w : World) (da : Nat) (mnt : Option Nat) (clri : Nat) (raw : clr_vnode),
      w.vnlayer_clrvnode_vfsp ≠ none →
      ¬ (w.vnlayer_sysroot_dentry = some da ∧ w.vnlayer_sysroot_mnt = mnt ∧
        w.vnlayer_sysroot_clrvp ≠ none) →
      ∃ w1 w2,
        vnlayer_linux_new_clrvnode S (some (clri, raw)) w (some da) mnt =
          some (some clri, w1) ∧
        vnlayer_linux_free_clrvnode S w1 clri = free_outcome.completed w2 ∧
        w2.d_count = w.d_count ∧ w2.mnt_count = w.mnt_count ∧
        w2.vnlayer_clrvnode_count = w.vnlayer_clrvnode_count) := by
  constructor
  · intro w cvp v hobj hsan
    obtain ⟨w2, h1, h2, h3, h4, _, _, h7⟩ := free_clrvnode_valid S w cvp v hobj hsan
    exact ⟨w2, h1, h2, h3, h4, h7⟩
  · intro w da mnt clri raw hvfs hslow
    obtain ⟨w1, c, hres, hc, _, hdent, hmnt, hsan, _, _, hdc, hmc, hcnt⟩ :=
      new_clrvnode_slow_path S w da mnt clri raw hvfs hslow
    obtain ⟨w2, h1, h2, h3, _, _, _, h7⟩ := free_clrvnode_valid S w1 clri c hc hsan
    refine ⟨w1, w2, hres, h1, ?_, ?_, ?_⟩
    · funext x
      rw [h2 x, hdc, VNODE_DGET_d_count, hdent]
      omega
    · funext x
      rw [h3 x, hmc, MDKI_MNTGET_mnt_count, hmnt]
      omega
    · rw [h7, hcnt]
      omega

/-- Witness of C13: on `root_world`, a slow-path create for the root entry
on the mount at address 5 followed by one destroy restores every count. -/
theorem c13_destroy_releases_once_witness :
    ∃ w1 w2,
      vnlayer_linux_new_clrvnode 0x600d (some (9, raw_vnode)) root_world (some 1)
        (some 5) = some (some 9, w1) ∧
      vnlayer_linux_free_clrvnode 0x600d w1 9 = free_outcome.completed w2 ∧
      w2.d_count = root_world.d_count ∧ w2.mnt_count = root_world.mnt_count ∧
      w2.vnlayer_clrvnode_count = root_world.vnlayer_clrvnode_count :=
  (c13_destroy_releases_once 0x600d).2 root_world 1 (some 5) 9 raw_vnode
    (by decide) (by decide)

/-- C14 (as stated, refuted): on `root_world`, after a slow-path create of
the vnode at address 9 and a first destroy, a second destroy of the same
vnode does not stop at the sanity assertion: it runs to its end. -/
theorem c14_counterexample :
    ∃ w1 w2 w3,
      vnlayer_linux_new_clrvnode 0x600d (some (9, raw_vnode)) root_world (some 1)
        (some 5) = some (some 9, w1) ∧
      vnlayer_linux_free_clrvnode 0x600d w1 9 = free_outcome.completed w2 ∧
      vnlayer_linux_free_clrvnode 0x600d w2 9 = free_outcome.completed w3 ∧
      (vnlayer_linux_free_clrvnode 0x600d w2 9).is_assertion_failed = false ∧
      w3.vnlayer_clrvnode_count = root_world.vnlayer_clrvnode_count - 1 := by
  obtain ⟨w1, c, hres, hc, _, _, _, hsan, _, _, _, _, hcnt⟩ :=
    new_clrvnode_slow_path 0x600d root_world 1 (some 5) 9 raw_vnode
      (by decide) (by decide)
  obtain ⟨w2, h1, _, _, h4, _, _, h7⟩ := free_clrvnode_valid 0x600d w1 9 c hc hsan
  obtain ⟨w3, g1, _, _, _, _, _, g7⟩ :=
    free_clrvnode_valid 0x600d w2 9 { c with v_dent := none, v_vfsmnt := none } h4 hsan
  refine ⟨w1, w2, w3, hres, h1, g1, ?_, ?_⟩
  · rw [g1]; rfl
  · rw [g7, h7, hcnt]
    omega

/-- C14 (amended): a destroy does not reset the sanity tag, so a second
destroy of a vnode that was destroyed (with a valid tag) passes the sanity
assertion and runs to its end; it releases no reference and changes no
vnode (the held fields are already NULL), and it decrements the live
cleartext-vnode counter a second time. -/
theorem c14_second_destroy_completes (S : Nat) (w : World) (cvp : Nat)
    (v : clr_vnode) (hobj : w.vnodes cvp = some v) (hsan : v.v_sanity = S) :
    ∃ w1 w2,
      vnlayer_linux_free_clrvnode S w cvp = free_outcome.completed w1 ∧
      vnlayer_linux_free_clrvnode S w1 cvp = free_outcome.completed w2 ∧
      w2.d_count = w1.d_count ∧ w2.mnt_count = w1.mnt_count ∧
      w2.vnodes = w1.vnodes ∧
      w2.vnlayer_clrvnode_count = w1.vnlayer_clrvnode_count - 1 ∧
      w2.vnlayer_clrvnode_count = w.vnlayer_clrvnode_count - 2 := by
  obtain ⟨w1, h1, _, _, h4, _, _, h7⟩ := free_clrvnode_valid S w cvp v hobj hsan
  obtain ⟨w2, g1, g2, g3, g4, g5, _, g7⟩ :=
    free_clrvnode_valid S w1 cvp { v with v_dent := none, v_vfsmnt := none } h4 hsan
  refine ⟨w1, w2, h1, g1, ?_, ?_, ?_, g7, ?_⟩
  · funext x
    rw [g2 x]
    simp
  · funext x
    rw [g3 x]
    simp
  · funext b
    by_cases hb : b = cvp
    · subst hb
      rw [g4, h4]
    · exact g5 b hb
  · rw [g7, h7]
    omega

/-- Witness of C14 (amended): two destroys of the cached root vnode of
`root_world`. -/
theorem c14_second_destroy_completes_witness :
    ∃ w1 w2,
      vnlayer_linux_free_clrvnode 0x600d root_world 7 = free_outcome.completed w1 ∧
      vnlayer_linux_free_clrvnode 0x600d w1 7 = free_outcome.completed w2 ∧
      w2.d_count = w1.d_count ∧ w2.mnt_count = w1.mnt_count ∧
      w2.vnodes = w1.vnodes ∧
      w2.vnlayer_clrvnode_count = w1.vnlayer_clrvnode_count - 1 ∧
      w2.vnlayer_clrvnode_count = root_world.vnlayer_clrvnode_count - 2 :=
  c14_second_destroy_completes 0x600d root_world 7 root_vnode rfl rfl

/-- C15: a destroy of a vnode whose sanity tag differs from `VNODE_SANITY`
stops at the failing assertion; at that point no reference has been
released and no vnode has been changed: the reference counts of all entries
and mounts and the held fields of the vnode are what they were before the
call (the live cleartext-vnode counter has already been decremented). -/
theorem c15_corrupt_tag_is_fatal (S : Nat) (w : World) (cvp : Nat)
    (v : clr_vnode) (hobj : w.vnodes cvp = some v) (hsan : v.v_sanity ≠ S) :
    ∃ w1,
      vnlayer_linux_free_clrvnode S w cvp = free_outcome.assertion_failed w1 ∧
      (vnlayer_linux_free_clrvnode S w cvp).is_completed = false ∧
      w1.d_count = w.d_count ∧ w1.mnt_count = w.mnt_count ∧
      w1.vnodes = w.vnodes ∧ w1.vnodes cvp = some v ∧
      w1.vnlayer_clrvnode_count = w.vnlayer_clrvnode_count - 1 := by
  have h : vnlayer_linux_free_clrvnode S w cvp =
      free_outcome.assertion_failed
        { w with vnlayer_clrvnode_count := w.vnlayer_clrvnode_count - 1 } := by
    unfold vnlayer_linux_free_clrvnode
    dsimp only
    rw [hobj]
    dsimp only
    rw [if_pos hsan]
  refine ⟨_, h, ?_, rfl, rfl, rfl, hobj, rfl⟩
  rw [h]
  rfl

/-- Witness of C15: the vnode at address 9 of `corrupt_world` carries the
tag `0xbad`. -/
theorem c15_corrupt_tag_is_fatal_witness :
    ∃ w1,
      vnlayer_linux_free_clrvnode 0x600d corrupt_world 9 =
        free_outcome.assertion_failed w1 ∧
      (vnlayer_linux_free_clrvnode 0x600d corrupt_world 9).is_completed = false ∧
      w1.d_count = corrupt_world.d_count ∧ w1.mnt_count = corrupt_world.mnt_count ∧
      w1.vnodes = corrupt_world.vnodes ∧
      w1.vnodes 9 = some { root_vnode with v_sanity := 0xbad } ∧
      w1.vnlayer_clrvnode_count = corrupt_world.vnlayer_clrvnode_count - 1 :=
  c15_corrupt_tag_is_fatal 0x600d corrupt_world 9
    { root_vnode with v_sanity := 0xbad } rfl (by decide)

/-! ## Filesystem-root context manager -/

theorem dget_guard (w : World) (p : Option Nat) :
    (if p ≠ none then VNODE_DGET w p else w) = VNODE_DGET w p := by
  cases p <;> simp [VNODE_DGET]

theorem dput_guard (w : World) (p : Option Nat) :
    (if p ≠ none then VNODE_DPUT w p else w) = VNODE_DPUT w p := by
  cases p <;> simp [VNODE_DPUT]

theorem mntget_guard (w : World) (p : Option Nat) :
    (if p ≠ none then MDKI_MNTGET w p else w) = MDKI_MNTGET w p := by
  cases p <;> simp [MDKI_MNTGET]

theorem mntput_guard (w : World) (p : Option Nat) :
    (if p ≠ none then MDKI_MNTPUT w p else w) = MDKI_MNTPUT w p := by
  cases p <;> simp [MDKI_MNTPUT]

/-- The context built by a successful `vnlayer_make_temp_fs_struct` and the
references it takes. -/
theorem make_temp_fs_struct_success (pre : Bool) (cfs : fs_struct) (w : World) :
    ∃ w2,
      vnlayer_make_temp_fs_struct pre true (some cfs) w =
        (some { umask := cfs.umask,
                root := w.vnlayer_sysroot_dentry,
                rootmnt := w.vnlayer_sysroot_mnt,
                pwd := cfs.pwd,
                pwdmnt := cfs.pwdmnt,
                altroot := if pre then cfs.altroot else none,
                altrootmnt := if pre then cfs.altrootmnt else none }, w2) ∧
      (∀ x, w2.d_count x = w.d_count x +
        (if w.vnlayer_sysroot_dentry = some x then 1 else 0) +
        (if cfs.pwd = some x then 1 else 0) +
        (if (if pre then cfs.altroot else none) = some x then 1 else 0)) ∧
      (∀ x, w2.mnt_count x = w.mnt_count x +
        (if w.vnlayer_sysroot_mnt = some x then 1 else 0) +
        (if cfs.pwdmnt = some x then 1 else 0) +
        (if (if pre then cfs.altrootmnt else none) = some x then 1 else 0)) ∧
      w2.vnodes = w.vnodes ∧ w2.d_inode = w.d_inode ∧
      w2.vnlayer_clrvnode_count = w.vnlayer_clrvnode_count ∧
      w2.vnlayer_sysroot_dentry = w.vnlayer_sysroot_dentry ∧
      w2.vnlayer_sysroot_mnt = w.vnlayer_sysroot_mnt := by
  unfold vnlayer_make_temp_fs_struct MDKI_FS_PWDDENTRY MDKI_FS_PWDMNT
  cases pre with
  | false =>
    refine ⟨_, rfl, ?_, ?_, ?_, ?_, ?_, ?_, ?_⟩
    · intro x
      try dsimp only
      rw [(MDKI_MNTGET_frame _ _).1, (MDKI_MNTGET_frame _ _).1,
        VNODE_DGET_d_count, VNODE_DGET_d_count]
      simp
    · intro x
      try dsimp only
      rw [MDKI_MNTGET_mnt_count, MDKI_MNTGET_mnt_count,
        (VNODE_DGET_frame _ _).1, (VNODE_DGET_frame _ _).1]
      simp
    · dsimp only
      rw [(MDKI_MNTGET_frame _ _).2.1, (MDKI_MNTGET_frame _ _).2.1,
        (VNODE_DGET_frame _ _).2.1, (VNODE_DGET_frame _ _).2.1]
    · dsimp only
      rw [(MDKI_MNTGET_frame _ _).2.2.1, (MDKI_MNTGET_frame _ _).2.2.1,
        (VNODE_DGET_frame _ _).2.2.1, (VNODE_DGET_frame _ _).2.2.1]
    · dsimp only
      rw [(MDKI_MNTGET_frame _ _).2.2.2.1, (MDKI_MNTGET_frame _ _).2.2.2.1,
        (VNODE_DGET_frame _ _).2.2.2.1, (VNODE_DGET_frame _ _).2.2.2.1]
    · dsimp only
      rw [(MDKI_MNTGET_frame _ _).2.2.2.2.2.2.1, (MDKI_MNTGET_frame _ _).2.2.2.2.2.2.1,
        (VNODE_DGET_frame _ _).2.2.2.2.2.2.1, (VNODE_DGET_frame _ _).2.2.2.2.2.2.1]
    · dsimp only
      rw [(MDKI_MNTGET_frame _ _).2.2.2.2.2.2.2, (MDKI_MNTGET_frame _ _).2.2.2.2.2.2.2,
        (VNODE_DGET_frame _ _).2.2.2.2.2.2.2, (VNODE_DGET_frame _ _).2.2.2.2.2.2.2]
  | true =>
    dsimp only
    simp only [Bool.not_true, Bool.false_eq_true, if_false, if_true]
    rw [dget_guard, mntget_guard]
    refine ⟨_, rfl, ?_, ?_, ?_, ?_, ?_, ?_, ?_⟩
    · intro x
      rw [(MDKI_MNTGET_frame _ _).1, VNODE_DGET_d_count,
        (MDKI_MNTGET_frame _ _).1, (MDKI_MNTGET_frame _ _).1,
        VNODE_DGET_d_count, VNODE_DGET_d_count]
    · intro x
      rw [MDKI_MNTGET_mnt_count, (VNODE_DGET_frame _ _).1,
        MDKI_MNTGET_mnt_count, MDKI_MNTGET_mnt_count,
        (VNODE_DGET_frame _ _).1, (VNODE_DGET_frame _ _).1]
    · rw [(MDKI_MNTGET_frame _ _).2.1, (VNODE_DGET_frame _ _).2.1,
        (MDKI_MNTGET_frame _ _).2.1, (MDKI_MNTGET_frame _ _).2.1,
        (VNODE_DGET_frame _ _).2.1, (VNODE_DGET_frame _ _).2.1]
    · rw [(MDKI_MNTGET_frame _ _).2.2.1, (VNODE_DGET_frame _ _).2.2.1,
        (MDKI_MNTGET_frame _ _).2.2.1, (MDKI_MNTGET_frame _ _).2.2.1,
        (VNODE_DGET_frame _ _).2.2.1, (VNODE_DGET_frame _ _).2.2.1]
    · rw [(MDKI_MNTGET_frame _ _).2.2.2.1, (VNODE_DGET_frame _ _).2.2.2.1,
        (MDKI_MNTGET_frame _ _).2.2.2.1, (MDKI_MNTGET_frame _ _).2.2.2.1,
        (VNODE_DGET_frame _ _).2.2.2.1, (VNODE_DGET_frame _ _).2.2.2.1]
    · rw [(MDKI_MNTGET_frame _ _).2.2.2.2.2.2.1, (VNODE_DGET_frame _ _).2.2.2.2.2.2.1,
        (MDKI_MNTGET_frame _ _).2.2.2.2.2.2.1, (MDKI_MNTGET_frame _ _).2.2.2.2.2.2.1,
        (VNODE_DGET_frame _ _).2.2.2.2.2.2.1, (VNODE_DGET_frame _ _).2.2.2.2.2.2.1]
    · rw [(MDKI_MNTGET_frame _ _).2.2.2.2.2.2.2, (VNODE_DGET_frame _ _).2.2.2.2.2.2.2,
        (MDKI_MNTGET_frame _ _).2.2.2.2.2.2.2, (MDKI_MNTGET_frame _ _).2.2.2.2.2.2.2,
        (VNODE_DGET_frame _ _).2.2.2.2.2.2.2, (VNODE_DGET_frame _ _).2.2.2.2.2.2.2]

/-- The references released by `vnlayer_free_temp_fs_struct`. -/
theorem free_temp_fs_struct_counts (pre : Bool) (w : World) (fs : fs_struct) :
    (∀ x, (vnlayer_free_temp_fs_struct pre w fs).d_count x = w.d_count x -
      (if fs.root = some x then 1 else 0) -
      (if fs.pwd = some x then 1 else 0) -
      (if (if pre then fs.altroot else none) = some x then 1 else 0)) ∧
    (∀ x, (vnlayer_free_temp_fs_struct pre w fs).mnt_count x = w.mnt_count x -
      (if fs.rootmnt = some x then 1 else 0) -
      (if fs.pwdmnt = some x then 1 else 0) -
      (if (if pre then fs.altrootmnt else none) = some x then 1 else 0)) ∧
    (vnlayer_free_temp_fs_struct pre w fs).vnodes = w.vnodes ∧
    (vnlayer_free_temp_fs_struct pre w fs).d_inode = w.d_inode ∧
    (vnlayer_free_temp_fs_struct pre w fs).vnlayer_clrvnode_count =
      w.vnlayer_clrvnode_count := by
  unfold vnlayer_free_temp_fs_struct MDKI_FS_ROOTDENTRY MDKI_FS_PWDDENTRY
    MDKI_FS_ROOTMNT MDKI_FS_PWDMNT
  cases pre with
  | false =>
    refine ⟨?_, ?_, ?_, ?_, ?_⟩
    · intro x
      simp only [Bool.false_eq_true, if_false]
      rw [(MDKI_MNTPUT_frame _ _).1, (MDKI_MNTPUT_frame _ _).1,
        VNODE_DPUT_d_count, VNODE_DPUT_d_count]
      simp
    · intro x
      simp only [Bool.false_eq_true, if_false]
      rw [MDKI_MNTPUT_mnt_count, MDKI_MNTPUT_mnt_count,
        (VNODE_DPUT_frame _ _).1, (VNODE_DPUT_frame _ _).1]
      simp
    · simp only [Bool.false_eq_true, if_false]
      rw [(MDKI_MNTPUT_frame _ _).2.1, (MDKI_MNTPUT_frame _ _).2.1,
        (VNODE_DPUT_frame _ _).2.1, (VNODE_DPUT_frame _ _).2.1]
    · simp only [Bool.false_eq_true, if_false]
      rw [(MDKI_MNTPUT_frame _ _).2.2.1, (MDKI_MNTPUT_frame _ _).2.2.1,
        (VNODE_DPUT_frame _ _).2.2.1, (VNODE_DPUT_frame _ _).2.2.1]
    · simp only [Bool.false_eq_true, if_false]
      rw [(MDKI_MNTPUT_frame _ _).2.2.2.1, (MDKI_MNTPUT_frame _ _).2.2.2.1,
        (VNODE_DPUT_frame _ _).2.2.2.1, (VNODE_DPUT_frame _ _).2.2.2.1]
  | true =>
    simp only [if_true]
    rw [dput_guard, mntput_guard]
    refine ⟨?_, ?_, ?_, ?_, ?_⟩
    · intro x
      rw [(MDKI_MNTPUT_frame _ _).1, VNODE_DPUT_d_count,
        (MDKI_MNTPUT_frame _ _).1, (MDKI_MNTPUT_frame _ _).1,
        VNODE_DPUT_d_count, VNODE_DPUT_d_count]
    · intro x
      rw [MDKI_MNTPUT_mnt_count, (VNODE_DPUT_frame _ _).1,
        MDKI_MNTPUT_mnt_count, MDKI_MNTPUT_mnt_count,
        (VNODE_DPUT_frame _ _).1, (VNODE_DPUT_frame _ _).1]
    · rw [(MDKI_MNTPUT_frame _ _).2.1, (VNODE_DPUT_frame _ _).2.1,
        (MDKI_MNTPUT_frame _ _).2.1, (MDKI_MNTPUT_frame _ _).2.1,
        (VNODE_DPUT_frame _ _).2.1, (VNODE_DPUT_frame _ _).2.1]
    · rw [(MDKI_MNTPUT_frame _ _).2.2.1, (VNODE_DPUT_frame _ _).2.2.1,
        (MDKI_MNTPUT_frame _ _).2.2.1, (MDKI_MNTPUT_frame _ _).2.2.1,
        (VNODE_DPUT_frame _ _).2.2.1, (VNODE_DPUT_frame _ _).2.2.1]
    · rw [(MDKI_MNTPUT_frame _ _).2.2.2.1, (VNODE_DPUT_frame _ _).2.2.2.1,
        (MDKI_MNTPUT_frame _ _).2.2.2.1, (MDKI_MNTPUT_frame _ _).2.2.2.1,
        (VNODE_DPUT_frame _ _).2.2.2.1, (VNODE_DPUT_frame _ _).2.2.2.1]

/-- C16 (as stated, refuted): the caller of `root_world` with the context
`chroot_fs` has the entry at address 20 as its current root, yet the context
returned by `vnlayer_make_temp_fs_struct` has the registered system root
(address 1) as root entry; the caller's root entry gets no reference and
the system root gets one. -/
theorem c16_counterexample :
    chroot_fs.root = some 20 ∧
    (vnlayer_make_temp_fs_struct false true (some chroot_fs) root_world).1.map
      (fun f => f.root) = some (some 1) ∧
    (vnlayer_make_temp_fs_struct false true (some chroot_fs) root_world).2.d_count 20
      = root_world.d_count 20 ∧
    (vnlayer_make_temp_fs_struct false true (some chroot_fs) root_world).2.d_count 1
      = root_world.d_count 1 + 1 := by
  decide

/-- C16 (amended): when the caller has a filesystem context and the
allocation succeeds, the returned context has the registered system root
(`vnlayer_sysroot_dentry`, `vnlayer_sysroot_mnt`) as root entry and mount,
the caller's cwd entry and mount and the caller's umask (and, on kernels
before 2.6.27, the caller's altroot entry and mount); one reference has been
added for each of these held pointers and nothing else has changed; when the
caller has no filesystem context or the allocation fails the call returns
NULL and the world is unchanged. -/
theorem c16_make_temp_fs_struct (pre : Bool) (kmalloc_ok : Bool)
    (current_fs : Option fs_struct) (w : World) :
    (∀ cfs, current_fs = some cfs → kmalloc_ok = true →
      ∃ fs w2,
        vnlayer_make_temp_fs_struct pre kmalloc_ok current_fs w = (some fs, w2) ∧
        fs.root = w.vnlayer_sysroot_dentry ∧ fs.rootmnt = w.vnlayer_sysroot_mnt ∧
        fs.pwd = cfs.pwd ∧ fs.pwdmnt = cfs.pwdmnt ∧ fs.umask = cfs.umask ∧
        fs.altroot = (if pre then cfs.altroot else none) ∧
        fs.altrootmnt = (if pre then cfs.altrootmnt else none) ∧
        (∀ x, w2.d_count x = w.d_count x +
          (if fs.root = some x then 1 else 0) +
          (if fs.pwd = some x then 1 else 0) +
          (if fs.altroot = some x then 1 else 0)) ∧
        (∀ x, w2.mnt_count x = w.mnt_count x +
          (if fs.rootmnt = some x then 1 else 0) +
          (if fs.pwdmnt = some x then 1 else 0) +
          (if fs.altrootmnt = some x then 1 else 0)) ∧
        w2.vnodes = w.vnodes ∧ w2.d_inode = w.d_inode ∧
        w2.vnlayer_clrvnode_count = w.vnlayer_clrvnode_count) ∧
    ((current_fs = none ∨ kmalloc_ok = false) →
      vnlayer_make_temp_fs_struct pre kmalloc_ok current_fs w = (none, w)) := by
  constructor
  · intro cfs hcfs hk
    subst hcfs
    subst hk
    obtain ⟨w2, h1, h2, h3, h4, h5, h6, _, _⟩ := make_temp_fs_struct_success pre cfs w
    exact ⟨_, w2, h1, rfl, rfl, rfl, rfl, rfl, rfl, rfl, h2, h3, h4, h5, h6⟩
  · intro h
    unfold vnlayer_make_temp_fs_struct
    rcases h with h | h
    · rw [h]
    · rw [h]
      cases current_fs <;> rfl

/-- Witness of C16 (amended): the caller with the context `chroot_fs` on
`root_world`. -/
theorem c16_make_temp_fs_struct_witness :
    ∃ fs w2,
      vnlayer_make_temp_fs_struct false true (some chroot_fs) root_world =
        (some fs, w2) ∧
      fs.root = root_world.vnlayer_sysroot_dentry ∧
      fs.rootmnt = root_world.vnlayer_sysroot_mnt ∧
      fs.pwd = chroot_fs.pwd ∧ fs.pwdmnt = chroot_fs.pwdmnt ∧
      fs.umask = chroot_fs.umask ∧
      fs.altroot = (if false then chroot_fs.altroot else none) ∧
      fs.altrootmnt = (if false then chroot_fs.altrootmnt else none) ∧
      (∀ x, w2.d_count x = root_world.d_count x +
        (if fs.root = some x then 1 else 0) +
        (if fs.pwd = some x then 1 else 0) +
        (if fs.altroot = some x then 1 else 0)) ∧
      (∀ x, w2.mnt_count x = root_world.mnt_count x +
        (if fs.rootmnt = some x then 1 else 0) +
        (if fs.pwdmnt = some x then 1 else 0) +
        (if fs.altrootmnt = some x then 1 else 0)) ∧
      w2.vnodes = root_world.vnodes ∧ w2.d_inode = root_world.d_inode ∧
      w2.vnlayer_clrvnode_count = root_world.vnlayer_clrvnode_count :=
  (c16_make_temp_fs_struct false true (some chroot_fs) root_world).1 chroot_fs
    rfl rfl

/-- C17: `vnlayer_free_temp_fs_struct` releases one reference for each of
the context's root entry, cwd entry, root mount and cwd mount (and, on
kernels before 2.6.27, for its altroot entry and mount) and changes nothing
else; and `vnlayer_make_temp_fs_struct` followed by
`vnlayer_free_temp_fs_struct` on its result leaves the reference count of
every entry and every mount equal to its value before the create. -/
theorem c17_free_temp_fs_struct (pre : Bool) (w : World) :
    (∀ fs : fs_struct,
      (∀ x, (vnlayer_free_temp_fs_struct pre w fs).d_count x = w.d_count x -
        (if fs.root = some x then 1 else 0) -
        (if fs.pwd = some x then 1 else 0) -
        (if (if pre then fs.altroot else none) = some x then 1 else 0)) ∧
      (∀ x, (vnlayer_free_temp_fs_struct pre w fs).mnt_count x = w.mnt_count x -
        (if fs.rootmnt = some x then 1 else 0) -
        (if fs.pwdmnt = some x then 1 else 0) -
        (if (if pre then fs.altrootmnt else none) = some x then 1 else 0)) ∧
      (vnlayer_free_temp_fs_struct pre w fs).vnodes = w.vnodes) ∧
    (∀ (cfs fs : fs_struct) (w2 : World),
      vnlayer_make_temp_fs_struct pre true (some cfs) w = (some fs, w2) →
      (vnlayer_free_temp_fs_struct pre w2 fs).d_count = w.d_count ∧
      (vnlayer_free_temp_fs_struct pre w2 fs).mnt_count = w.mnt_count ∧
      (vnlayer_free_temp_fs_struct pre w2 fs).vnodes = w.vnodes ∧
      (vnlayer_free_temp_fs_struct pre w2 fs).vnlayer_clrvnode_count =
        w.vnlayer_clrvnode_count) := by
  constructor
  · intro fs
    obtain ⟨h1, h2, h3, _, _⟩ := free_temp_fs_struct_counts pre w fs
    exact ⟨h1, h2, h3⟩
  · intro cfs fs w2 hmake
    obtain ⟨w2', h1, h2, h3, h4, _, h6, _, _⟩ := make_temp_fs_struct_success pre cfs w
    rw [h1] at hmake
    simp only [Prod.mk.injEq, Option.some.injEq] at hmake
    obtain ⟨hfs, hw⟩ := hmake
    subst hfs
    subst hw
    obtain ⟨g1, g2, g3, _, g5⟩ := free_temp_fs_struct_counts pre w2'
      { umask := cfs.umask, root := w.vnlayer_sysroot_dentry,
        rootmnt := w.vnlayer_sysroot_mnt, pwd := cfs.pwd, pwdmnt := cfs.pwdmnt,
        altroot := if pre then cfs.altroot else none,
        altrootmnt := if pre then cfs.altrootmnt else none }
    refine ⟨?_, ?_, ?_, ?_⟩
    · funext x
      rw [g1 x, h2 x]
      cases pre <;> dsimp only <;> simp only [Bool.false_eq_true, if_false, if_true] <;> omega
    · funext x
      rw [g2 x, h3 x]
      cases pre <;> dsimp only <;> simp only [Bool.false_eq_true, if_false, if_true] <;> omega
    · rw [g3, h4]
    · rw [g5, h6]

/-- Witness of C17: create and destroy of a context for the caller with
`chroot_fs` on `root_world`. -/
theorem c17_free_temp_fs_struct_witness :
    (vnlayer_free_temp_fs_struct false
        (vnlayer_make_temp_fs_struct false true (some chroot_fs) root_world).2
        { umask := 0o022, root := some 1, rootmnt := some 2, pwd := some 21,
          pwdmnt := some 2, altroot := none, altrootmnt := none }).d_count =
      root_world.d_count ∧
    (vnlayer_free_temp_fs_struct false
        (vnlayer_make_temp_fs_struct false true (some chroot_fs) root_world).2
        { umask := 0o022, root := some 1, rootmnt := some 2, pwd := some 21,
          pwdmnt := some 2, altroot := none, altrootmnt := none }).mnt_count =
      root_world.mnt_count ∧
    (vnlayer_free_temp_fs_struct false
        (vnlayer_make_temp_fs_struct false true (some chroot_fs) root_world).2
        { umask := 0o022, root := some 1, rootmnt := some 2, pwd := some 21,
          pwdmnt := some 2, altroot := none, altrootmnt := none }).vnodes =
      root_world.vnodes ∧
    (vnlayer_free_temp_fs_struct false
        (vnlayer_make_temp_fs_struct false true (some chroot_fs) root_world).2
        { umask := 0o022, root := some 1, rootmnt := some 2, pwd := some 21,
          pwdmnt := some 2, altroot := none, altrootmnt := none }).vnlayer_clrvnode_count =
      root_world.vnlayer_clrvnode_count :=
  (c17_free_temp_fs_struct false root_world).2 chroot_fs _ _ rfl

/-! ## Shadow object allocator -/

/-- C18 (as stated, refuted): the real inode `real_no_tables` has no
follow-link and no mmap operation (it has no operation table at all), yet
the shadow inode filled in from it gets neither the regular inode table nor
the plain file table: both table pointers are left as they were, NULL. -/
theorem c18_counterexample :
    real_no_tables.i_op = none ∧ real_no_tables.i_fop = none ∧
    (vnlayer_shadow_inode true real_no_tables (some 60) blank_shadow).map
      (fun s => s.i_op) = some none ∧
    (vnlayer_shadow_inode true real_no_tables (some 60) blank_shadow).map
      (fun s => s.i_fop) = some none := by
  decide

/-- C18 (amended): in a build with `HAVE_SHADOW_FILES`, for every real
object that has an inode-operation table the shadow's inode table is the
symlink variant if the table has a follow-link operation and the regular
variant otherwise, and for every real object that has a file-operation
table the shadow's file table is the mapped variant if the table has an mmap
operation and the plain variant otherwise; when the real object lacks a
table the corresponding table of the shadow is left as it was.  Nothing else
of the real object enters the choice. -/
theorem c18_shadow_tables (real_inode : real_inode_t) (d_sb : Option Nat)
    (shadow_inode : shadow_inode_t) :
    ∃ s,
      vnlayer_shadow_inode true real_inode d_sb shadow_inode = some s ∧
      (∀ ops, real_inode.i_op = some ops →
        s.i_op = some (if ops.follow_link then op_table.vnode_shadow_slink_inode_ops
          else op_table.vnode_shadow_reg_inode_ops)) ∧
      (∀ fops, real_inode.i_fop = some fops →
        s.i_fop = some (if fops.mmap then op_table.vnode_shadow_mapped_file_ops
          else op_table.vnode_shadow_file_ops)) ∧
      (real_inode.i_op = none → s.i_op = shadow_inode.i_op) ∧
      (real_inode.i_fop = none → s.i_fop = shadow_inode.i_fop) := by
  obtain ⟨iop, ifop, attrs⟩ := real_inode
  rcases iop with _ | ⟨⟨fl⟩⟩ <;> rcases ifop with _ | ⟨⟨mm⟩⟩ <;>
    (try cases fl) <;> (try cases mm) <;>
    exact ⟨_, rfl, fun ops h => (by cases h <;> rfl),
      fun fops h => (by cases h <;> rfl),
      fun h => (by cases h <;> rfl), fun h => (by cases h <;> rfl)⟩

/-- Witness of C18 (amended): the shadow of the symbolic link
`real_symlink` gets the symlink inode table and the plain file table. -/
theorem c18_shadow_tables_witness :
    (vnlayer_shadow_inode true real_symlink (some 60) blank_shadow).map
      (fun s => (s.i_op, s.i_fop)) =
      some (some op_table.vnode_shadow_slink_inode_ops,
            some op_table.vnode_shadow_file_ops) := by
  obtain ⟨s, hs, h1, h2, _, _⟩ := c18_shadow_tables real_symlink (some 60) blank_shadow
  rw [hs]
  simp only [Option.map_some', Option.some.injEq, Prod.mk.injEq]
  exact ⟨h1 { follow_link := true } rfl, h2 { mmap := false } rfl⟩

/-! ## Credential switcher: restore after an unchanged save -/

/-- C19 (as stated, refuted): `user_task` saving its own identity gets FALSE
with a NULL token, and `vnlayer_fsuid_restore` on that token is not a no-op
(which would be `some (none, user_task)`): the call faults, on the branch
for kernels from 2.6.32 on and on the older branch. -/
theorem c19_counterexample :
    vnlayer_fsuid_save false all_ok user_task same_cred =
      { rv := false, save_p := none, cur := user_task } ∧
    vnlayer_fsuid_restore false true
      (vnlayer_fsuid_save false all_ok user_task same_cred).cur
      (vnlayer_fsuid_save false all_ok user_task same_cred).save_p = none ∧
    vnlayer_fsuid_restore true true
      (vnlayer_fsuid_save true all_ok user_task same_cred).cur
      (vnlayer_fsuid_save true all_ok user_task same_cred).save_p = none := by
  decide

/-- C19 (amended): when `vnlayer_fsuid_save` returns FALSE the token is NULL
and `current` is already what it was before the save; `vnlayer_fsuid_restore`
has no check for a NULL token, so calling it on that token faults instead of
returning: the restore must be skipped. -/
theorem c19_restore_after_unchanged (old_kernel : Bool) (restore_ok : Bool)
    (env : SaveOutcomes) (cur : task_struct) (cred : CRED_T)
    (hrv : (vnlayer_fsuid_save old_kernel env cur cred).rv = false) :
    (vnlayer_fsuid_save old_kernel env cur cred).save_p = none ∧
    (vnlayer_fsuid_save old_kernel env cur cred).cur = cur ∧
    vnlayer_fsuid_restore old_kernel restore_ok
      (vnlayer_fsuid_save old_kernel env cur cred).cur
      (vnlayer_fsuid_save old_kernel env cur cred).save_p = none := by
  rw [save_failure old_kernel env cur cred hrv]
  refine ⟨rfl, rfl, ?_⟩
  unfold vnlayer_fsuid_restore
  cases old_kernel <;> rfl

/-- Witness of C19 (amended): `user_task` saving its own identity. -/
theorem c19_restore_after_unchanged_witness :
    (vnlayer_fsuid_save false all_ok user_task same_cred).save_p = none ∧
    (vnlayer_fsuid_save false all_ok user_task same_cred).cur = user_task ∧
    vnlayer_fsuid_restore false true
      (vnlayer_fsuid_save false all_ok user_task same_cred).cur
      (vnlayer_fsuid_save false all_ok user_task same_cred).save_p = none :=
  c19_restore_after_unchanged false true all_ok user_task same_cred (by decide)

/-! ## Type conversions -/

theorem mode_to_vtype_mask (m : Nat) :
    vnlayer_mode_to_vtype (m &&& S_IFMT) = vnlayer_mode_to_vtype m := by
  unfold vnlayer_mode_to_vtype
  have h : S_IFMT &&& S_IFMT = S_IFMT := by decide
  rw [Nat.land_assoc, h]

/-- C20: for every `v` among VREG, VDIR, VCHR, VLNK, VFIFO and VNON,
`vnlayer_vtype_to_mode v` returns a mode that `vnlayer_mode_to_vtype` maps
back to `v` (for VBLK and VSOCK it reaches `BUG()`); for every mode `m`
whose file-type bits are S_IFREG, S_IFDIR, S_IFCHR, S_IFLNK or S_IFIFO,
`vnlayer_vtype_to_mode (vnlayer_mode_to_vtype m)` is `m & S_IFMT`; and
`vnlayer_mode_to_vtype` depends only on `m & S_IFMT`. -/
theorem c20_vtype_mode_inverse :
    (∀ v, v ∈ [VTYPE_T.VREG, VTYPE_T.VDIR, VTYPE_T.VCHR, VTYPE_T.VLNK,
        VTYPE_T.VFIFO, VTYPE_T.VNON] →
      ∃ m, vnlayer_vtype_to_mode v = some m ∧ vnlayer_mode_to_vtype m = v) ∧
    (vnlayer_vtype_to_mode VTYPE_T.VBLK = none ∧
      vnlayer_vtype_to_mode VTYPE_T.VSOCK = none) ∧
    (∀ m : Nat,
      (m &&& S_IFMT = S_IFREG ∨ m &&& S_IFMT = S_IFDIR ∨ m &&& S_IFMT = S_IFCHR ∨
        m &&& S_IFMT = S_IFLNK ∨ m &&& S_IFMT = S_IFIFO) →
      vnlayer_vtype_to_mode (vnlayer_mode_to_vtype m) = some (m &&& S_IFMT)) ∧
    (∀ m : Nat, vnlayer_mode_to_vtype m = vnlayer_mode_to_vtype (m &&& S_IFMT)) ∧
    (∀ m n : Nat, m &&& S_IFMT = n &&& S_IFMT →
      vnlayer_mode_to_vtype m = vnlayer_mode_to_vtype n) := by
  refine ⟨?_, ⟨rfl, rfl⟩, ?_, ?_, ?_⟩
  · intro v hv
    cases v <;> first
      | exact ⟨_, rfl, by decide⟩
      | (exact absurd hv (by decide))
  · intro m h
    unfold vnlayer_mode_to_vtype
    rcases h with h | h | h | h | h <;> rw [h] <;> decide
  · intro m
    exact (mode_to_vtype_mask m).symm
  · intro m n h
    rw [← mode_to_vtype_mask m, ← mode_to_vtype_mask n, h]

/-! ## Glue: mandatory locks -/

theorem has_mandlocks_loop_iff (F : Nat) (files : Option Nat) :
    ∀ l : List file_lock,
      (has_mandlocks_loop F files l = -EAGAIN ↔
        ∃ fl ∈ l, (fl.fl_flags &&& F) ≠ 0 ∧ fl.fl_owner ≠ files) ∧
      (has_mandlocks_loop F files l = -EAGAIN ∨ has_mandlocks_loop F files l = 0) := by
  intro l
  induction l with
  | nil =>
    unfold has_mandlocks_loop
    refine ⟨?_, Or.inr rfl⟩
    simp [EAGAIN]
  | cons fl rest ih =>
    unfold has_mandlocks_loop
    by_cases h : (fl.fl_flags &&& F) ≠ 0 ∧ fl.fl_owner ≠ files
    · rw [if_pos h]
      refine ⟨?_, Or.inl rfl⟩
      constructor
      · intro _
        exact ⟨fl, List.mem_cons_self fl rest, h⟩
      · intro _
        rfl
    · rw [if_neg h]
      refine ⟨?_, ih.2⟩
      rw [ih.1]
      constructor
      · rintro ⟨g, hg, hc⟩
        exact ⟨g, List.mem_cons_of_mem fl hg, hc⟩
      · rintro ⟨g, hg, hc⟩
        rcases List.mem_cons.1 hg with e | e
        · subst e
          exact absurd hc h
        · exact ⟨g, e, hc⟩

/-- C22: `vnlayer_has_mandlocks` returns `-EAGAIN` if and only if
`MANDATORY_LOCK(ip)` is not 0 and the lock list holds a lock with an
`FL_POSIX` bit whose owner is not the caller's file table; in every other
case, and in particular for an empty lock list, it returns 0; the inode and
its lock list are the same after the call as before. -/
theorem c22_has_mandlocks (FL_POSIX : Nat) (current_files : Option Nat)
    (ip : lock_inode) :
    ((vnlayer_has_mandlocks FL_POSIX current_files ip).1 = -EAGAIN ↔
      (ip.mandatory_lock ≠ 0 ∧
        ∃ fl ∈ ip.i_flock, (fl.fl_flags &&& FL_POSIX) ≠ 0 ∧
          fl.fl_owner ≠ current_files)) ∧
    (¬ (ip.mandatory_lock ≠ 0 ∧
        ∃ fl ∈ ip.i_flock, (fl.fl_flags &&& FL_POSIX) ≠ 0 ∧
          fl.fl_owner ≠ current_files) →
      (vnlayer_has_mandlocks FL_POSIX current_files ip).1 = 0) ∧
    (ip.i_flock = [] → (vnlayer_has_mandlocks FL_POSIX current_files ip).1 = 0) ∧
    (vnlayer_has_mandlocks FL_POSIX current_files ip).2 = ip := by
  have hloop := has_mandlocks_loop_iff FL_POSIX current_files ip.i_flock
  unfold vnlayer_has_mandlocks
  by_cases hm : ip.mandatory_lock = 0
  · rw [if_pos hm]
    refine ⟨?_, fun _ => rfl, fun _ => rfl, rfl⟩
    constructor
    · intro h
      simp [EAGAIN] at h
    · intro h
      exact absurd hm h.1
  · rw [if_neg hm]
    refine ⟨?_, ?_, ?_, rfl⟩
    · show has_mandlocks_loop FL_POSIX current_files ip.i_flock = -EAGAIN ↔ _
      rw [hloop.1]
      constructor
      · intro h; exact ⟨hm, h⟩
      · intro h; exact h.2
    · intro hn
      show has_mandlocks_loop FL_POSIX current_files ip.i_flock = 0
      rcases hloop.2 with h | h
      · exact absurd ⟨hm, hloop.1.1 h⟩ hn
      · exact h
    · intro he
      show has_mandlocks_loop FL_POSIX current_files ip.i_flock = 0
      rw [he]
      rfl

/-- Witness of C22: on `locked_inode` the caller with the file table at
address 71 meets the POSIX lock of owner 70 and gets `-EAGAIN`. -/
theorem c22_has_mandlocks_witness :
    (vnlayer_has_mandlocks FL_POSIX_linux (some 71) locked_inode).1 = -EAGAIN :=
  (c22_has_mandlocks FL_POSIX_linux (some 71) locked_inode).1.2
    ⟨by decide, { fl_flags := 1, fl_owner := some 70 }, by decide, by decide, by decide⟩

/-! ## Glue: XDR opaque data -/

theorem xdr_pad_eq (B count : Nat) (hB : 0 < B) :
    (if count % B ≠ 0 then B - count % B else count % B) = (B - count % B) % B := by
  by_cases h : count % B = 0
  · simp [h]
  · have hlt : count % B < B := Nat.mod_lt count hB
    have h2 : B - count % B < B := by omega
    rw [if_pos h, Nat.mod_eq_of_lt h2]

theorem xdr_pad_lt (B count : Nat) (hB : 0 < B) : (B - count % B) % B < B :=
  Nat.mod_lt _ hB

theorem xdr_padded_multiple (B count : Nat) (hB : 0 < B) :
    (count + (B - count % B) % B) % B = 0 := by
  by_cases h : count % B = 0
  · simp [h]
  · have hlt : count % B < B := Nat.mod_lt count hB
    have h2 : B - count % B < B := by omega
    rw [Nat.mod_eq_of_lt h2]
    have hsplit : count = B * (count / B) + count % B := (Nat.div_add_mod count B).symm
    have : count + (B - count % B) = B * (count / B + 1) := by
      rw [Nat.mul_add, Nat.mul_one]
      omega
    rw [this]
    exact Nat.mul_mod_right B _

theorem xdr_padded_least (B count n : Nat) (hB : 0 < B) (hn : count ≤ n)
    (hdiv : n % B = 0) : count + (B - count % B) % B ≤ n := by
  by_cases h : count % B = 0
  · simp [h]
    exact hn
  · have hlt : count % B < B := Nat.mod_lt count hB
    have h2 : B - count % B < B := by omega
    rw [Nat.mod_eq_of_lt h2]
    have hsplit : count = B * (count / B) + count % B := (Nat.div_add_mod count B).symm
    have hnsplit : n = B * (n / B) := by
      have := (Nat.div_add_mod n B).symm
      rw [hdiv] at this
      simpa using this
    have hq : count / B < n / B := by
      apply Nat.lt_of_mul_lt_mul_left (a := B)
      omega
    have hle : B * (count / B + 1) ≤ B * (n / B) := Nat.mul_le_mul_left B hq
    rw [Nat.mul_add, Nat.mul_one] at hle
    omega

/-- Encoding `count > 0` bytes onto a stream with room. -/
theorem xdr_opaque_encode (B : Nat) (hB : 0 < B) (xdrp : XDR) (charp : List Nat)
    (count : Nat) (hcount : 0 < count) (hlen : charp.length = count)
    (hop : xdrp.x_op = xdr_op.XDR_ENCODE)
    (hroom : count + (B - count % B) % B ≤ xdrp.x_handy) :
    mdki_xdr_opaque B xdrp charp count =
      (true,
        { xdrp with
          x_out := xdrp.x_out ++ charp ++ List.replicate ((B - count % B) % B) 0,
          x_handy := xdrp.x_handy - (count + (B - count % B) % B) },
        charp) := by
  have hc0 : ¬ count = 0 := by omega
  have htake : charp.take count = charp := by
    rw [← hlen]; exact List.take_length charp
  have hput : count ≤ xdrp.x_handy := by omega
  unfold mdki_xdr_opaque
  rw [if_neg hc0]
  dsimp only
  rw [xdr_pad_eq B count hB, hop]
  dsimp only
  unfold XDR_PUTBYTES
  rw [if_pos hput, htake]
  dsimp only
  by_cases hp : (B - count % B) % B = 0
  · rw [if_pos hp, hp]
    simp [hop]
  · rw [if_neg hp]
    have hroom2 : (B - count % B) % B ≤ xdrp.x_handy - count := by omega
    rw [if_pos hroom2]
    have hmin : min ((B - count % B) % B) B = (B - count % B) % B :=
      Nat.min_eq_left (Nat.le_of_lt (xdr_pad_lt B count hB))
    have hsub : xdrp.x_handy - count - (B - count % B) % B =
        xdrp.x_handy - (count + (B - count % B) % B) := by omega
    simp only [List.take_replicate, hmin, hsub, hop]

/-- Decoding `count > 0` bytes from a stream that starts with the encoded
form of `data`. -/
theorem xdr_opaque_decode (B : Nat) (hB : 0 < B) (d : XDR) (data buf rest : List Nat)
    (count : Nat) (hcount : 0 < count) (hlen : data.length = count)
    (hbuf : buf.length = count)
    (hop : d.x_op = xdr_op.XDR_DECODE)
    (hin : d.x_in = data ++ List.replicate ((B - count % B) % B) 0 ++ rest) :
    mdki_xdr_opaque B d buf count = (true, { d with x_in := rest }, data) := by
  have hc0 : ¬ count = 0 := by omega
  have hdrop : buf.drop count = [] := by
    rw [← hbuf]; exact List.drop_length buf
  have hget : count ≤ d.x_in.length := by
    rw [hin]
    simp only [List.length_append, List.length_replicate]
    omega
  have htake1 : d.x_in.take count = data := by
    rw [hin, List.append_assoc, ← hlen]
    exact List.take_left' rfl
  have hdrop1 : d.x_in.drop count =
      List.replicate ((B - count % B) % B) 0 ++ rest := by
    rw [hin, List.append_assoc, ← hlen]
    exact List.drop_left' rfl
  unfold mdki_xdr_opaque
  rw [if_neg hc0]
  dsimp only
  rw [xdr_pad_eq B count hB, hop]
  dsimp only
  unfold XDR_GETBYTES
  rw [if_pos hget, htake1, hdrop1, hdrop]
  dsimp only
  by_cases hp : (B - count % B) % B = 0
  · rw [if_pos hp, hp]
    simp [hop]
  · rw [if_neg hp]
    have hget2 : (B - count % B) % B ≤
        (List.replicate ((B - count % B) % B) 0 ++ rest).length := by
      simp only [List.length_append, List.length_replicate]
      omega
    rw [if_pos hget2]
    have hd2 : (List.replicate ((B - count % B) % B) 0 ++ rest).drop
        ((B - count % B) % B) = rest :=
      List.drop_left' (List.length_replicate _ _)
    simp only [hd2, List.append_nil, hop]

/-- C21: for `count > 0` and a buffer of `count` bytes, encoding onto a
stream with enough room returns TRUE and appends the `count` bytes followed
by `(BYTES_PER_XDR_UNIT - count mod BYTES_PER_XDR_UNIT) mod
BYTES_PER_XDR_UNIT` zero bytes, so that the number of bytes written is the
least multiple of `BYTES_PER_XDR_UNIT` that is at least `count`; decoding a
stream that starts with these bytes, with the same `count`, returns TRUE,
fills the buffer with the original bytes and consumes exactly the bytes
written; with `count = 0` the call returns TRUE and leaves stream and buffer
untouched whatever the stream's operation. -/
theorem c21_xdr_opaque_roundtrip (B : Nat) (xdrp : XDR) (charp : List Nat)
    (count : Nat) (hB : 0 < B) (hcount : 0 < count)
    (hlen : charp.length = count)
    (hop : xdrp.x_op = xdr_op.XDR_ENCODE)
    (hroom : count + (B - count % B) % B ≤ xdrp.x_handy) :
    mdki_xdr_opaque B xdrp charp count =
      (true,
        { xdrp with
          x_out := xdrp.x_out ++ charp ++ List.replicate ((B - count % B) % B) 0,
          x_handy := xdrp.x_handy - (count + (B - count % B) % B) },
        charp) ∧
    (count + (B - count % B) % B) % B = 0 ∧
    (∀ n, count ≤ n → n % B = 0 → count + (B - count % B) % B ≤ n) ∧
    (∀ (d : XDR) (buf rest : List Nat),
      d.x_op = xdr_op.XDR_DECODE → buf.length = count →
      d.x_in = charp ++ List.replicate ((B - count % B) % B) 0 ++ rest →
      mdki_xdr_opaque B d buf count = (true, { d with x_in := rest }, charp)) ∧
    (∀ (x : XDR) (b : List Nat), mdki_xdr_opaque B x b 0 = (true, x, b)) := by
  refine ⟨xdr_opaque_encode B hB xdrp charp count hcount hlen hop hroom,
    xdr_padded_multiple B count hB, ?_, ?_, ?_⟩
  · intro n hn hdiv
    exact xdr_padded_least B count n hB hn hdiv
  · intro d buf rest hd hbuf hin
    exact xdr_opaque_decode B hB d charp buf rest count hcount hlen hbuf hd hin
  · intro x b
    unfold mdki_xdr_opaque
    rw [if_pos rfl]

/-- Witness of C21: five bytes encoded with a unit of 4 onto `enc_stream`
are followed by three zero bytes. -/
theorem c21_xdr_opaque_roundtrip_witness :
    mdki_xdr_opaque 4 enc_stream [104, 101, 108, 108, 111] 5 =
      (true,
        { enc_stream with
          x_out := enc_stream.x_out ++ [104, 101, 108, 108, 111] ++
            List.replicate ((4 - 5 % 4) % 4) 0,
          x_handy := enc_stream.x_handy - (5 + (4 - 5 % 4) % 4) },
        [104, 101, 108, 108, 111]) ∧
    (5 + (4 - 5 % 4) % 4) % 4 = 0 ∧
    (∀ n, 5 ≤ n → n % 4 = 0 → 5 + (4 - 5 % 4) % 4 ≤ n) ∧
    (∀ (d : XDR) (buf rest : List Nat),
      d.x_op = xdr_op.XDR_DECODE → buf.length = 5 →
      d.x_in = [104, 101, 108, 108, 111] ++ List.replicate ((4 - 5 % 4) % 4) 0 ++ rest →
      mdki_xdr_opaque 4 d buf 5 =
        (true, { d with x_in := rest }, [104, 101, 108, 108, 111])) ∧
    (∀ (x : XDR) (b : List Nat), mdki_xdr_opaque 4 x b 0 = (true, x, b)) :=
  c21_xdr_opaque_roundtrip 4 enc_stream [104, 101, 108, 108, 111] 5
    (by decide) (by decide) (by decide) (by decide) (by decide)

end Mvfs
